import Mathlib

/-! curve-nbd: NBDController

A shallow embedding of `src/NBDController.h` and `src/NBDController.cpp`.

The controllers talk to the kernel through system and library calls.  Every
such call is recorded, in program order, in `World.trace`; its result is
supplied by an environment `Env`, a deterministic oracle which may look at
every call issued before it.  Member functions become functions from the
object state and the world to a return value, the new object state and the
new world.  C `int` values are `Int`; `uint32_t` / `uint64_t` values are
`Nat`; pointers are `Int` addresses with `nullptr = 0`.
-/

namespace curve.nbd

/-! ## Kernel interface vocabulary -/

/-- Request codes passed to `ioctl` (`linux/nbd.h`, `linux/fs.h`). -/
inductive Req
  | NBD_SET_SOCK
  | NBD_SET_BLKSIZE
  | NBD_SET_SIZE
  | NBD_SET_FLAGS
  | NBD_SET_TIMEOUT
  | NBD_CLEAR_SOCK
  | NBD_DISCONNECT
  | NBD_DO_IT
  | BLKROSET
  deriving DecidableEq, Repr

/-- Generic netlink command codes of the nbd family (`nbd-netlink.h`). -/
inductive Cmd
  | NBD_CMD_CONNECT
  | NBD_CMD_DISCONNECT
  | NBD_CMD_RECONFIGURE
  deriving DecidableEq, Repr

/-- Attribute types of the nbd family (`nbd-netlink.h`). -/
inductive AttrType
  | NBD_ATTR_INDEX
  | NBD_ATTR_TIMEOUT
  | NBD_ATTR_SIZE_BYTES
  | NBD_ATTR_BLOCK_SIZE_BYTES
  | NBD_ATTR_SERVER_FLAGS
  | NBD_ATTR_SOCKETS
  | NBD_SOCK_ITEM
  | NBD_SOCK_FD
  deriving DecidableEq, Repr

/-- One element appended to a netlink message under construction.  Nesting
is delimited by `nest_start` / `nest_end`, as in the attribute stream. -/
inductive Item
  | u32 (t : AttrType) (v : Nat)
  | u64 (t : AttrType) (v : Nat)
  | nest_start (t : AttrType)
  | nest_end (t : AttrType)
  deriving DecidableEq, Repr

/-- A netlink message: the header written by `genlmsg_put` (family and
command; `none` before the header is written) and the attribute stream. -/
structure NlMsg where
  hdr : Option (Int × Cmd)
  body : List Item
  deriving DecidableEq, Repr

/-- The callbacks installed with `nl_socket_modify_cb`. -/
inductive Callback
  | netlink_connect_cb
  | genl_handle_msg
  deriving DecidableEq, Repr

/-- A system or library call together with its arguments. -/
inductive Call
  | open (path : String)
  | close (fd : Int)
  | ioctl (fd : Int) (req : Req) (arg : Int)
  | check_device_size (index : Int) (size : Nat)
  | check_block_size (index : Int) (blocksize : Nat)
  | nl_socket_alloc
  | genl_connect (sock : Int)
  | genl_ctrl_resolve (sock : Int) (name : String)
  | nl_close (sock : Int)
  | nl_socket_free (sock : Int)
  | nl_socket_modify_cb (sock : Int) (cb : Callback)
  | nlmsg_alloc
  | genlmsg_put (family : Int) (cmd : Cmd)
  | nla_put_u32 (t : AttrType) (v : Nat)
  | nla_put_u64 (t : AttrType) (v : Nat)
  | nla_nest_start (t : AttrType)
  | nla_nest_end (t : AttrType)
  | nl_send_sync (sock : Int) (msg : NlMsg)
  | nlmsg_free
  deriving DecidableEq, Repr

/-- What `nla_parse` makes of a reply handed to the valid-message callback:
its return code and the `NBD_ATTR_INDEX` entry of the parsed table. -/
structure Reply where
  nla_parse : Int
  index : Option Nat
  deriving DecidableEq, Repr

/-- The environment.  `sys h c` is the value call `c` returns when the calls
`h` were issued before it; `errno h` is the value of `errno` after the calls
`h`; `reply h m` is the valid message, if any, which the kernel's answer to
the synchronous send of `m` hands to the installed callback.
`parse_nbd_index` and `get_nbd_max_count` are the helpers of `util.h`. -/
structure Env where
  sys : List Call → Call → Int
  errno : List Call → Int
  reply : List Call → NlMsg → Option Reply
  parse_nbd_index : String → Int
  get_nbd_max_count : Int

/-- Everything outside the controller object: the calls issued so far, the
diagnostics written to `dout`, and the global `g_nbd_index`. -/
structure World where
  trace : List Call
  log : List String
  g_nbd_index : Int
  deriving DecidableEq, Repr

/-- Issue a call: ask the environment for the result and record the call. -/
def World.call (env : Env) (w : World) (c : Call) : Int × World :=
  (env.sys w.trace c, { w with trace := w.trace ++ [c] })

/-- Write a diagnostic to `dout`. -/
def World.dout (w : World) (msg : String) : World :=
  { w with log := w.log ++ [msg] }

/-- `NBD_FLAG_READ_ONLY` of `linux/nbd.h`: `(1 << 1)`. -/
def NBD_FLAG_READ_ONLY : Nat := 2

/-- `ENOMEM` of `errno.h`. -/
def ENOMEM : Int := 12

/-- `EIO` of `errno.h`. -/
def EIO : Int := 5

/-- `NLE_MSGTYPE_NOSUPPORT` of `netlink/errno.h`. -/
def NLE_MSGTYPE_NOSUPPORT : Int := 22

/-- `NL_OK` of `netlink/handlers.h`. -/
def NL_OK : Int := 0

/-- The null pointer. -/
def nullptr : Int := 0

/-- Conversion of an `int` to `uint32_t`. -/
def toU32 (x : Int) : Nat := (x % 4294967296).toNat

/-- Conversion of an `int` to `uint64_t`. -/
def toU64 (x : Int) : Nat := (x % 18446744073709551616).toNat

/-- Modelled from the spec: the configuration record `NBDConfig` of
`define.h`, of which the controllers use the device path (empty: pick any
free slot) and the timeout (negative: leave the kernel default). -/
structure NBDConfig where
  devpath : String
  timeout : Int
  deriving DecidableEq, Repr

/-! ## NBDController (base class) -/

/-- Data members of `NBDController`. -/
structure NBDController where
  nbdFd_ : Int
  nbdIndex_ : Int
  deriving DecidableEq, Repr

/-- Result of a member function: return value, object state, world. -/
structure Out (σ : Type) where
  ret : Int
  self : σ
  w : World

/-- Result of `SetUp`, which also writes to the configuration. -/
structure SetUpOut (σ : Type) where
  ret : Int
  config : NBDConfig
  self : σ
  w : World

/-- Constructor `NBDController()`. -/
def NBDController.new : NBDController := { nbdFd_ := -1, nbdIndex_ := -1 }

/-- `NBDController::RunUntilQuit`. -/
def NBDController.RunUntilQuit (env : Env) (self : NBDController) (w : World) : World :=
  if self.nbdFd_ < 0 then w
  else (w.call env (.ioctl self.nbdFd_ .NBD_DO_IT 0)).2

/-- `NBDController::ClearUp`. -/
def NBDController.ClearUp (env : Env) (self : NBDController) (w : World) :
    NBDController × World :=
  if self.nbdFd_ < 0 then (self, w)
  else ({ nbdFd_ := -1, nbdIndex_ := -1 }, (w.call env (.close self.nbdFd_)).2)

/-- `NBDController::GetNBDIndex`. -/
def NBDController.GetNBDIndex (self : NBDController) : Int := self.nbdIndex_

/-- `NBDController::CheckSetReadOnly`.  The parameter `flag` is an `int`;
callers pass a `uint64_t`, and bit 1 of the converted value is bit 1 of the
low 32 bits, so the test is made on those. -/
def NBDController.CheckSetReadOnly (env : Env) (nbdfd : Int) (flag : Nat) (w : World) :
    Int × World :=
  let arg : Int := if (flag % 4294967296) &&& NBD_FLAG_READ_ONLY ≠ 0 then 1 else 0
  let r := w.call env (.ioctl nbdfd .BLKROSET arg)
  if r.1 < 0 then (-(env.errno r.2.trace), r.2) else r

/-! ## IOController (device-control strategy) -/

/-- `IOController::InitDevAttr`. -/
def IOController.InitDevAttr (env : Env) (config : NBDConfig) (size blocksize flags : Nat)
    (self : NBDController) (w : World) : Int × World :=
  let r1 := w.call env (.ioctl self.nbdFd_ .NBD_SET_BLKSIZE blocksize)
  if r1.1 < 0 then r1 else
  let r2 := r1.2.call env (.ioctl self.nbdFd_ .NBD_SET_SIZE size)
  if r2.1 < 0 then r2 else
  let r3 := r2.2.call env (.ioctl self.nbdFd_ .NBD_SET_FLAGS flags)
  let r4 := NBDController.CheckSetReadOnly env self.nbdFd_ flags r3.2
  if r4.1 < 0 then
    (r4.1, r4.2.dout "curve-nbd: Check and set read only flag failed.")
  else if config.timeout ≥ 0 then
    let r5 := r4.2.call env (.ioctl self.nbdFd_ .NBD_SET_TIMEOUT config.timeout)
    if r5.1 < 0 then (r5.1, r5.2.dout "curve-nbd: failed to set timeout: ") else r5
  else r4

/-- `IOController::MapOnNbdDeviceByDevPath`. -/
def IOController.MapOnNbdDeviceByDevPath (env : Env) (sockfd : Int) (devpath : String)
    (logWhenError : Bool) (self : NBDController) (w : World) : Out NBDController :=
  let index := env.parse_nbd_index devpath
  if index < 0 then ⟨-1, self, w⟩ else
  let o := w.call env (.open devpath)
  if o.1 < 0 then
    ⟨-1, self, if logWhenError then o.2.dout "curve-nbd: failed to open device: " else o.2⟩
  else
  let r := o.2.call env (.ioctl o.1 .NBD_SET_SOCK sockfd)
  if r.1 < 0 then
    let w1 := if logWhenError then r.2.dout "curve-nbd: ioctl NBD_SET_SOCK failed, devpath: "
              else r.2
    ⟨-1, self, (w1.call env (.close o.1)).2⟩
  else
    ⟨0, { nbdFd_ := o.1, nbdIndex_ := index }, { r.2 with g_nbd_index := index }⟩

/-- The device path `snprintf(dev, sizeof(dev), "/dev/nbd%d", index)`. -/
def devName (index : Nat) : String := "/dev/nbd" ++ toString index

/-- Result of `MapOnUnusedNbdDevice`: `devpath` is the value of `*devpath`
when the function returns. -/
structure MapOut where
  ret : Int
  devpath : String
  self : NBDController
  w : World

/-- The `while (index < nbdsMax)` loop of `MapOnUnusedNbdDevice`;
`remaining` is `nbdsMax - index`, clamped at zero. -/
def IOController.MapOnUnusedNbdDevice.loop (env : Env) (sockfd : Int) (devpath : String) :
    (remaining : Nat) → (index : Nat) → NBDController → World → MapOut
  | 0, _, self, w =>
    ⟨-1, devpath, self, w.dout "curve-nbd: failed to map on unused device, max nbd index: "⟩
  | remaining + 1, index, self, w =>
    let r := IOController.MapOnNbdDeviceByDevPath env sockfd (devName index) false self w
    if r.ret < 0 then
      IOController.MapOnUnusedNbdDevice.loop env sockfd devpath remaining (index + 1) r.self r.w
    else
      ⟨0, devName index, r.self, r.w⟩

/-- `IOController::MapOnUnusedNbdDevice`. -/
def IOController.MapOnUnusedNbdDevice (env : Env) (sockfd : Int) (devpath : String)
    (self : NBDController) (w : World) : MapOut :=
  IOController.MapOnUnusedNbdDevice.loop env sockfd devpath env.get_nbd_max_count.toNat 0 self w

/-- `IOController::SetUp`. -/
def IOController.SetUp (env : Env) (config : NBDConfig) (sockfd : Int)
    (size blocksize flags : Nat) (self : NBDController) (w : World) :
    SetUpOut NBDController :=
  let m : MapOut :=
    if config.devpath = "" then
      IOController.MapOnUnusedNbdDevice env sockfd config.devpath self w
    else
      let r := IOController.MapOnNbdDeviceByDevPath env sockfd config.devpath true self w
      ⟨r.ret, config.devpath, r.self, r.w⟩
  let config1 : NBDConfig := { config with devpath := m.devpath }
  if m.ret < 0 then ⟨-1, config1, m.self, m.w⟩ else
  let a := IOController.InitDevAttr env config1 size blocksize flags m.self m.w
  let c : Int × World :=
    if a.1 < 0 then a else
    let d := a.2.call env (.check_device_size m.self.nbdIndex_ size)
    if d.1 < 0 then d else
    d.2.call env (.check_block_size m.self.nbdIndex_ blocksize)
  if c.1 < 0 then
    let w1 := c.2.dout "curve-nbd: failed to map, status: "
    let w2 := (w1.call env (.ioctl m.self.nbdFd_ .NBD_CLEAR_SOCK 0)).2
    let w3 := (w2.call env (.close m.self.nbdFd_)).2
    ⟨c.1, config1, { nbdFd_ := -1, nbdIndex_ := -1 }, w3⟩
  else
    ⟨0, config1, m.self, c.2⟩

/-- `IOController::DisconnectByPath`. -/
def IOController.DisconnectByPath (env : Env) (devpath : String) (self : NBDController)
    (w : World) : Out NBDController :=
  let o := w.call env (.open devpath)
  if o.1 < 0 then ⟨o.1, self, o.2.dout "curve-nbd: failed to open device: "⟩ else
  let r := o.2.call env (.ioctl o.1 .NBD_DISCONNECT 0)
  let w1 := if r.1 < 0 then r.2.dout "curve-nbd: the device is not used. " else r.2
  ⟨r.1, self, (w1.call env (.close o.1)).2⟩

/-- `IOController::Resize`. -/
def IOController.Resize (env : Env) (size : Nat) (self : NBDController) (w : World) :
    Out NBDController :=
  if self.nbdFd_ < 0 then
    ⟨-1, self, w.dout "resize failed: nbd controller is not setup."⟩
  else
    let r := w.call env (.ioctl self.nbdFd_ .NBD_SET_SIZE size)
    ⟨r.1, self, if r.1 < 0 then r.2.dout "resize failed: " else r.2⟩

/-! ## NetLinkController (generic netlink strategy) -/

/-- Data members of `NetLinkController`. -/
structure NetLinkController extends NBDController where
  nlId_ : Int
  sock_ : Int
  deriving DecidableEq, Repr

/-- Constructor `NetLinkController()`. -/
def NetLinkController.new : NetLinkController :=
  { toNBDController := NBDController.new, nlId_ := -1, sock_ := nullptr }

/-- `NetLinkController::Init`. -/
def NetLinkController.Init (env : Env) (self : NetLinkController) (w : World) :
    Out NetLinkController :=
  if self.sock_ ≠ nullptr then
    ⟨0, self, w.dout "curve-nbd: Could not allocate netlink socket."⟩
  else
  let a := w.call env .nl_socket_alloc
  if a.1 = nullptr then
    ⟨-1, self, a.2.dout "curve-nbd: Could not alloc netlink socket. Error "⟩
  else
  let c := a.2.call env (.genl_connect a.1)
  if c.1 < 0 then
    let w1 := c.2.dout "curve-nbd: Could not connect netlink socket. Error "
    ⟨-1, self, (w1.call env (.nl_socket_free a.1)).2⟩
  else
  let g := c.2.call env (.genl_ctrl_resolve a.1 "nbd")
  let self1 : NetLinkController := { self with nlId_ := g.1 }
  if g.1 < 0 then
    let w1 := g.2.dout "curve-nbd: Could not resolve netlink socket. Error "
    let w2 := (w1.call env (.nl_close a.1)).2
    ⟨-1, self1, (w2.call env (.nl_socket_free a.1)).2⟩
  else
    ⟨0, { self1 with sock_ := a.1 }, g.2⟩

/-- `NetLinkController::Uninit`. -/
def NetLinkController.Uninit (env : Env) (self : NetLinkController) (w : World) :
    NetLinkController × World :=
  if self.sock_ = nullptr then (self, w)
  else
    let w1 := (w.call env (.nl_close self.sock_)).2
    let w2 := (w1.call env (.nl_socket_free self.sock_)).2
    ({ self with sock_ := nullptr, nlId_ := -1 }, w2)

/-- `netlink_connect_cb`, the valid-message callback of the CONNECT request.
Returns the callback's result and the configuration it was given as `arg`. -/
def netlink_connect_cb (msg : Reply) (cfg : NBDConfig) (w : World) :
    Int × NBDConfig × World :=
  if msg.nla_parse ≠ 0 then
    (-NLE_MSGTYPE_NOSUPPORT, cfg, w.dout "curve-nbd: Unsupported netlink reply")
  else
    match msg.index with
    | none =>
      (-NLE_MSGTYPE_NOSUPPORT, cfg,
        w.dout "curve-nbd: netlink connect reply missing device index.")
    | some index =>
      (NL_OK, { cfg with devpath := "/dev/nbd" ++ toString index }, w)

/-- The library call `nl_send_sync` with a custom valid-message callback:
the message is sent and the answer is processed before the call returns.  A
valid message in the answer is handed to the callback; when the callback
reports an error, that negative value is the result of the call, otherwise
the result is the one the environment gives for the call. -/
def nl_send_sync {α : Type} (env : Env) (sock : Int) (msg : NlMsg)
    (cb : Reply → α → World → Int × α × World) (arg : α) (w : World) : Int × α × World :=
  let r := w.call env (.nl_send_sync sock msg)
  match env.reply w.trace msg with
  | none => (r.1, arg, r.2)
  | some m =>
    let c := cb m arg r.2
    if c.1 < 0 then c else (r.1, c.2.1, c.2.2)

/-- A message under construction, with the world in which it is built. -/
structure Build where
  msg : NlMsg
  w : World

/-- The macro `NLA_PUT_U32`: on failure control goes to `nla_put_failure`,
here the error case. -/
def NLA_PUT_U32 (env : Env) (t : AttrType) (v : Nat) (b : Build) : Except World Build :=
  let r := b.w.call env (.nla_put_u32 t v)
  if r.1 < 0 then .error r.2
  else .ok { msg := { b.msg with body := b.msg.body ++ [.u32 t v] }, w := r.2 }

/-- The macro `NLA_PUT_U64`. -/
def NLA_PUT_U64 (env : Env) (t : AttrType) (v : Nat) (b : Build) : Except World Build :=
  let r := b.w.call env (.nla_put_u64 t v)
  if r.1 < 0 then .error r.2
  else .ok { msg := { b.msg with body := b.msg.body ++ [.u64 t v] }, w := r.2 }

/-- The call `nla_nest_start` followed by the null check made on its result;
`diag` is the diagnostic written when the result is null. -/
def nla_nest_start (env : Env) (t : AttrType) (diag : String) (b : Build) :
    Except World Build :=
  let r := b.w.call env (.nla_nest_start t)
  if r.1 = nullptr then .error (r.2.dout diag)
  else .ok { msg := { b.msg with body := b.msg.body ++ [.nest_start t] }, w := r.2 }

/-- The call `nla_nest_end`, whose result is not looked at. -/
def nla_nest_end (env : Env) (t : AttrType) (b : Build) : Build :=
  { msg := { b.msg with body := b.msg.body ++ [.nest_end t] },
    w := (b.w.call env (.nla_nest_end t)).2 }

/-- The call `genlmsg_put` followed by the null check made on its result. -/
def genlmsg_put (env : Env) (family : Int) (cmd : Cmd) (b : Build) : Except World Build :=
  let r := b.w.call env (.genlmsg_put family cmd)
  if r.1 = nullptr then .error (r.2.dout "curve-nbd: Could not setup message.")
  else .ok { msg := { b.msg with hdr := some (family, cmd) }, w := r.2 }

/-- Result of `ConnectInternal`: return value, configuration, world. -/
structure ConnectOut where
  ret : Int
  config : NBDConfig
  w : World

/-- The part of `ConnectInternal` from `genlmsg_put` to the second
`nla_nest_end`: every exit to the label `nla_put_failure` is the error case,
which carries the world at the jump. -/
def NetLinkController.ConnectInternal.build (env : Env) (config : NBDConfig) (sockfd : Int)
    (size blocksize flags : Nat) (self : NetLinkController) (w : World) :
    Except World Build := do
  let b ← genlmsg_put env self.nlId_ .NBD_CMD_CONNECT ⟨⟨none, []⟩, w⟩
  let b ←
    (if config.devpath ≠ "" then
      (if env.parse_nbd_index config.devpath < 0 then Except.error b.w
       else NLA_PUT_U32 env .NBD_ATTR_INDEX (toU32 (env.parse_nbd_index config.devpath)) b)
    else Except.ok b)
  let b ←
    (if config.timeout ≥ 0 then NLA_PUT_U64 env .NBD_ATTR_TIMEOUT (toU64 config.timeout) b
    else Except.ok b)
  let b ← NLA_PUT_U64 env .NBD_ATTR_SIZE_BYTES size b
  let b ← NLA_PUT_U64 env .NBD_ATTR_BLOCK_SIZE_BYTES blocksize b
  let b ← NLA_PUT_U64 env .NBD_ATTR_SERVER_FLAGS flags b
  let b ← nla_nest_start env .NBD_ATTR_SOCKETS
    "curve-nbd: Could not init sockets in netlink message." b
  let b ← nla_nest_start env .NBD_SOCK_ITEM
    "curve-nbd: Could not init sock in netlink message." b
  let b ← NLA_PUT_U32 env .NBD_SOCK_FD (toU32 sockfd) b
  let b := nla_nest_end env .NBD_SOCK_ITEM b
  let b := nla_nest_end env .NBD_ATTR_SOCKETS b
  pure b

/-- `NetLinkController::ConnectInternal`. -/
def NetLinkController.ConnectInternal (env : Env) (config : NBDConfig) (sockfd : Int)
    (size blocksize flags : Nat) (self : NetLinkController) (w : World) : ConnectOut :=
  let w0 := (w.call env (.nl_socket_modify_cb self.sock_ .netlink_connect_cb)).2
  let m := w0.call env .nlmsg_alloc
  if m.1 = nullptr then
    ⟨-ENOMEM, config, m.2.dout "curve-nbd: Could not allocate netlink message."⟩
  else
  match NetLinkController.ConnectInternal.build env config sockfd size blocksize flags
      self m.2 with
  | .error w1 => ⟨- EIO, config, (w1.call env .nlmsg_free).2⟩
  | .ok b =>
    let s := nl_send_sync env self.sock_ b.msg netlink_connect_cb config b.w
    if s.1 < 0 then ⟨- EIO, s.2.1, s.2.2.dout "curve-nbd: netlink connect failed: "⟩
    else ⟨0, s.2.1, s.2.2⟩

/-- The part of `DisconnectInternal` which can jump to `nla_put_failure`. -/
def NetLinkController.DisconnectInternal.build (env : Env) (index : Int)
    (self : NetLinkController) (w : World) : Except World Build := do
  let b ← genlmsg_put env self.nlId_ .NBD_CMD_DISCONNECT ⟨⟨none, []⟩, w⟩
  let b ← NLA_PUT_U32 env .NBD_ATTR_INDEX (toU32 index) b
  pure b

/-- `NetLinkController::DisconnectInternal`.  The installed callback is the
library's `genl_handle_msg`; what it does is part of the environment's answer
to `nl_send_sync`. -/
def NetLinkController.DisconnectInternal (env : Env) (index : Int)
    (self : NetLinkController) (w : World) : Int × World :=
  let w0 := (w.call env (.nl_socket_modify_cb self.sock_ .genl_handle_msg)).2
  let m := w0.call env .nlmsg_alloc
  if m.1 = nullptr then
    (- EIO, m.2.dout "curve-nbd: Could not allocate netlink message.")
  else
  match NetLinkController.DisconnectInternal.build env index self m.2 with
  | .error w1 => (- EIO, (w1.call env .nlmsg_free).2)
  | .ok b =>
    let s := b.w.call env (.nl_send_sync self.sock_ b.msg)
    if s.1 < 0 then (- EIO, s.2.dout "curve-nbd: netlink disconnect failed: ")
    else (0, s.2)

/-- The part of `ResizeInternal` which can jump to `nla_put_failure`. -/
def NetLinkController.ResizeInternal.build (env : Env) (nbdIndex : Int) (size : Nat)
    (self : NetLinkController) (w : World) : Except World Build := do
  let b ← genlmsg_put env self.nlId_ .NBD_CMD_RECONFIGURE ⟨⟨none, []⟩, w⟩
  let b ← NLA_PUT_U32 env .NBD_ATTR_INDEX (toU32 nbdIndex) b
  let b ← NLA_PUT_U64 env .NBD_ATTR_SIZE_BYTES size b
  pure b

/-- `NetLinkController::ResizeInternal`.  The installed callback is the
library's `genl_handle_msg`, as in `DisconnectInternal`. -/
def NetLinkController.ResizeInternal (env : Env) (nbdIndex : Int) (size : Nat)
    (self : NetLinkController) (w : World) : Int × World :=
  let w0 := (w.call env (.nl_socket_modify_cb self.sock_ .genl_handle_msg)).2
  let m := w0.call env .nlmsg_alloc
  if m.1 = nullptr then
    (- EIO, m.2.dout "curve-nbd: Could not allocate netlink message.")
  else
  match NetLinkController.ResizeInternal.build env nbdIndex size self m.2 with
  | .error w1 => (- EIO, (w1.call env .nlmsg_free).2)
  | .ok b =>
    let s := b.w.call env (.nl_send_sync self.sock_ b.msg)
    if s.1 < 0 then (- EIO, s.2.dout "curve-nbd: netlink resize failed: ")
    else (0, s.2)

/-- `NetLinkController::SetUp`. -/
def NetLinkController.SetUp (env : Env) (config : NBDConfig) (sockfd : Int)
    (size blocksize flags : Nat) (self : NetLinkController) (w : World) :
    SetUpOut NetLinkController :=
  let i := NetLinkController.Init env self w
  if i.ret < 0 then
    ⟨i.ret, config, i.self, i.w.dout "curve-nbd: Netlink interface not supported."⟩
  else
  let c := NetLinkController.ConnectInternal env config sockfd size blocksize flags i.self i.w
  let u := NetLinkController.Uninit env i.self c.w
  if c.ret < 0 then ⟨c.ret, c.config, u.1, u.2⟩ else
  let index := env.parse_nbd_index c.config.devpath
  if index < 0 then ⟨index, c.config, u.1, u.2⟩ else
  let b := u.2.call env (.check_block_size index blocksize)
  if b.1 < 0 then ⟨b.1, c.config, u.1, b.2⟩ else
  let d := b.2.call env (.check_device_size index size)
  if d.1 < 0 then ⟨d.1, c.config, u.1, d.2⟩ else
  let o := d.2.call env (.open c.config.devpath)
  if o.1 < 0 then ⟨o.1, c.config, u.1, o.2.dout "curve-nbd: failed to open device: "⟩ else
  let r := NBDController.CheckSetReadOnly env o.1 flags o.2
  if r.1 < 0 then
    let w1 := r.2.dout "curve-nbd: Check and set read only flag failed."
    ⟨r.1, c.config, u.1, (w1.call env (.close o.1)).2⟩
  else
    ⟨0, c.config, { u.1 with nbdFd_ := o.1, nbdIndex_ := index }, r.2⟩

/-- `NetLinkController::DisconnectByPath`. -/
def NetLinkController.DisconnectByPath (env : Env) (devpath : String)
    (self : NetLinkController) (w : World) : Out NetLinkController :=
  let index := env.parse_nbd_index devpath
  if index < 0 then ⟨index, self, w⟩ else
  let i := NetLinkController.Init env self w
  if i.ret < 0 then
    ⟨i.ret, i.self, i.w.dout "curve-nbd: Netlink interface not supported."⟩
  else
  let r := NetLinkController.DisconnectInternal env index i.self i.w
  let u := NetLinkController.Uninit env i.self r.2
  ⟨r.1, u.1, u.2⟩

/-- `NetLinkController::Resize`. -/
def NetLinkController.Resize (env : Env) (size : Nat) (self : NetLinkController)
    (w : World) : Out NetLinkController :=
  if self.nbdIndex_ < 0 then
    ⟨-1, self, w.dout "resize failed: nbd controller is not setup."⟩
  else
  let i := NetLinkController.Init env self w
  if i.ret < 0 then
    ⟨i.ret, i.self, i.w.dout "curve-nbd: Netlink interface not supported."⟩
  else
  let r := NetLinkController.ResizeInternal env self.nbdIndex_ size i.self i.w
  let u := NetLinkController.Uninit env i.self r.2
  ⟨r.1, u.1, u.2⟩

/-- `NetLinkController::Support`. -/
def NetLinkController.Support (env : Env) (self : NetLinkController) (w : World) :
    Bool × NetLinkController × World :=
  let i := NetLinkController.Init env self w
  if i.ret < 0 then
    (false, i.self, i.w.dout "curve-nbd: Netlink interface not supported.")
  else
    let u := NetLinkController.Uninit env i.self i.w
    (true, u.1, u.2)

/-! ## Auxiliary notions used to state the properties -/

/-- The world after the scan of `MapOnUnusedNbdDevice`, started on object
`self` in world `w`, has tried slots `0 .. k-1` in this order. -/
def scanWorld (env : Env) (sockfd : Int) (self : NBDController) (w : World) : Nat → World
  | 0 => w
  | k + 1 =>
    (IOController.MapOnNbdDeviceByDevPath env sockfd (devName k) false self
      (scanWorld env sockfd self w k)).w

/-- Slot `i` is claimable: the claim made on it by the scan, after the slots
below it have been tried, succeeds. -/
def claimable (env : Env) (sockfd : Int) (self : NBDController) (w : World) (i : Nat) : Prop :=
  0 ≤ (IOController.MapOnNbdDeviceByDevPath env sockfd (devName i) false self
    (scanWorld env sockfd self w i)).ret

instance (env : Env) (sockfd : Int) (self : NBDController) (w : World) (i : Nat) :
    Decidable (claimable env sockfd self w i) := by
  unfold claimable; infer_instance

/-- The calls by which a messaging session is opened and closed. -/
def Call.isSession : Call → Bool
  | .nl_socket_alloc => true
  | .genl_connect _ => true
  | .genl_ctrl_resolve _ _ => true
  | .nl_close _ => true
  | .nl_socket_free _ => true
  | _ => false

/-- The attribute instructions of `InitDevAttr` which do not depend on the
timeout, in program order, for descriptor `fd`. -/
def attrSequence (fd : Int) (size blocksize flags : Nat) : List Call :=
  [ .ioctl fd .NBD_SET_BLKSIZE blocksize,
    .ioctl fd .NBD_SET_SIZE size,
    .ioctl fd .NBD_SET_FLAGS flags,
    .ioctl fd .BLKROSET (if (flags % 4294967296) &&& NBD_FLAG_READ_ONLY ≠ 0 then 1 else 0) ]

/-- The attribute stream of a CONNECT message: the target index when a path
is configured, then `mid`, then size, block size, server flags and the
nested socket list.  `mid` is where the timeout attribute goes. -/
def connectBody (env : Env) (config : NBDConfig) (sockfd : Int) (size blocksize flags : Nat)
    (mid : List Item) : List Item :=
  (if config.devpath ≠ "" then
      [Item.u32 .NBD_ATTR_INDEX (toU32 (env.parse_nbd_index config.devpath))]
    else []) ++ mid ++
  [ .u64 .NBD_ATTR_SIZE_BYTES size,
    .u64 .NBD_ATTR_BLOCK_SIZE_BYTES blocksize,
    .u64 .NBD_ATTR_SERVER_FLAGS flags,
    .nest_start .NBD_ATTR_SOCKETS,
    .nest_start .NBD_SOCK_ITEM,
    .u32 .NBD_SOCK_FD (toU32 sockfd),
    .nest_end .NBD_SOCK_ITEM,
    .nest_end .NBD_ATTR_SOCKETS ]

/-- The encoding call which appends a given item to a message. -/
def Item.toCall : Item → Call
  | .u32 t v => .nla_put_u32 t v
  | .u64 t v => .nla_put_u64 t v
  | .nest_start t => .nla_nest_start t
  | .nest_end t => .nla_nest_end t

/-- The outcome `x` of a stretch of message construction started with trace
`t`: if it completed, the message is `m` and exactly the calls `expected`
were added to the trace; if it was abandoned, the calls added are a prefix of
`expected`. -/
def Tracks (t : List Call) (m : NlMsg) (expected : List Call) : Except World Build → Prop
  | .ok b => b.msg = m ∧ b.w.trace = t ++ expected
  | .error w1 => t <+: w1.trace ∧ w1.trace <+: t ++ expected

/-- States of an `IOController` reachable from construction through the
public operations, each run in an arbitrary environment. -/
inductive IOController.Reachable : NBDController → World → Prop
  | new (w : World) : IOController.Reachable NBDController.new w
  | SetUp {s : NBDController} {w : World} (env : Env) (config : NBDConfig) (sockfd : Int)
      (size blocksize flags : Nat) (h : IOController.Reachable s w) :
      IOController.Reachable (IOController.SetUp env config sockfd size blocksize flags s w).self
        (IOController.SetUp env config sockfd size blocksize flags s w).w
  | DisconnectByPath {s : NBDController} {w : World} (env : Env) (devpath : String)
      (h : IOController.Reachable s w) :
      IOController.Reachable (IOController.DisconnectByPath env devpath s w).self
        (IOController.DisconnectByPath env devpath s w).w
  | Resize {s : NBDController} {w : World} (env : Env) (size : Nat)
      (h : IOController.Reachable s w) :
      IOController.Reachable (IOController.Resize env size s w).self
        (IOController.Resize env size s w).w
  | RunUntilQuit {s : NBDController} {w : World} (env : Env)
      (h : IOController.Reachable s w) :
      IOController.Reachable s (NBDController.RunUntilQuit env s w)
  | CheckSetReadOnly {s : NBDController} {w : World} (env : Env) (nbdfd : Int) (flag : Nat)
      (h : IOController.Reachable s w) :
      IOController.Reachable s (NBDController.CheckSetReadOnly env nbdfd flag w).2
  | ClearUp {s : NBDController} {w : World} (env : Env)
      (h : IOController.Reachable s w) :
      IOController.Reachable (NBDController.ClearUp env s w).1 (NBDController.ClearUp env s w).2

/-- `ClearUp` as inherited by `NetLinkController`: it acts on the base part. -/
def NetLinkController.ClearUp (env : Env) (self : NetLinkController) (w : World) :
    NetLinkController × World :=
  ({ self with toNBDController := (NBDController.ClearUp env self.toNBDController w).1 },
    (NBDController.ClearUp env self.toNBDController w).2)

/-- States of a `NetLinkController` reachable from construction through the
public operations, each run in an arbitrary environment. -/
inductive NetLinkController.Reachable : NetLinkController → World → Prop
  | new (w : World) : NetLinkController.Reachable NetLinkController.new w
  | SetUp {s : NetLinkController} {w : World} (env : Env) (config : NBDConfig) (sockfd : Int)
      (size blocksize flags : Nat) (h : NetLinkController.Reachable s w) :
      NetLinkController.Reachable
        (NetLinkController.SetUp env config sockfd size blocksize flags s w).self
        (NetLinkController.SetUp env config sockfd size blocksize flags s w).w
  | DisconnectByPath {s : NetLinkController} {w : World} (env : Env) (devpath : String)
      (h : NetLinkController.Reachable s w) :
      NetLinkController.Reachable (NetLinkController.DisconnectByPath env devpath s w).self
        (NetLinkController.DisconnectByPath env devpath s w).w
  | Resize {s : NetLinkController} {w : World} (env : Env) (size : Nat)
      (h : NetLinkController.Reachable s w) :
      NetLinkController.Reachable (NetLinkController.Resize env size s w).self
        (NetLinkController.Resize env size s w).w
  | Support {s : NetLinkController} {w : World} (env : Env)
      (h : NetLinkController.Reachable s w) :
      NetLinkController.Reachable (NetLinkController.Support env s w).2.1
        (NetLinkController.Support env s w).2.2
  | RunUntilQuit {s : NetLinkController} {w : World} (env : Env)
      (h : NetLinkController.Reachable s w) :
      NetLinkController.Reachable s (NBDController.RunUntilQuit env s.toNBDController w)
  | CheckSetReadOnly {s : NetLinkController} {w : World} (env : Env) (nbdfd : Int)
      (flag : Nat) (h : NetLinkController.Reachable s w) :
      NetLinkController.Reachable s (NBDController.CheckSetReadOnly env nbdfd flag w).2
  | ClearUp {s : NetLinkController} {w : World} (env : Env)
      (h : NetLinkController.Reachable s w) :
      NetLinkController.Reachable (NetLinkController.ClearUp env s w).1
        (NetLinkController.ClearUp env s w).2

/-- Whether the result `r` of call `c` is a failure of a step of message
construction: `nlmsg_alloc`, `genlmsg_put` and `nla_nest_start` fail by
returning null, the `nla_put` behind `NLA_PUT_U32` / `NLA_PUT_U64` fails by
returning a negative value.  These are the results the construction inspects;
`nla_nest_end` closes a nest whose content is already in the message and its
result is not inspected. -/
def Call.failed : Call → Int → Bool
  | .nlmsg_alloc, r => decide (r = nullptr)
  | .genlmsg_put _ _, r => decide (r = nullptr)
  | .nla_put_u32 _ _, r => decide (r < 0)
  | .nla_put_u64 _ _, r => decide (r < 0)
  | .nla_nest_start _, r => decide (r = nullptr)
  | _, _ => false

/-- Every call of `l`, issued in this order after the calls `t`, got a result
which is not a failure. -/
def allSucceeded (env : Env) : List Call → List Call → Bool
  | _, [] => true
  | t, c :: l => !(c.failed (env.sys t c)) && allSucceeded env (t ++ [c]) l

/-- A stretch of message construction started with trace `t` that completes
has issued the calls `expected` and none of them failed. -/
def Completes (env : Env) (t : List Call) (expected : List Call)
    (x : Except World Build) : Prop :=
  ∀ b, x = .ok b → allSucceeded env t expected = true

/-- A stretch of message construction started with trace `t` completes when
none of the calls `expected` it is to issue fails. -/
def Progresses (env : Env) (t : List Call) (expected : List Call)
    (x : Except World Build) : Prop :=
  allSucceeded env t expected = true → ∃ b, x = .ok b

/-! ## Concrete environments -/

/-- The world at program start. -/
def World.init : World := { trace := [], log := [], g_nbd_index := 0 }

/-- A device-path parser for the first four slots; other paths are rejected
with `-EINVAL`. -/
def sampleParse (p : String) : Int :=
  if p = "/dev/nbd0" then 0
  else if p = "/dev/nbd1" then 1
  else if p = "/dev/nbd2" then 2
  else if p = "/dev/nbd3" then 3
  else -22

/-- Call results in a kernel where everything succeeds: `open` yields
descriptor 3, allocations yield non-null addresses, the family resolves to
identifier 27, and every other call returns 0. -/
def okSys (_ : List Call) : Call → Int
  | .open _ => 3
  | .nl_socket_alloc => 1000
  | .nlmsg_alloc => 2000
  | .genlmsg_put _ _ => 2016
  | .nla_nest_start _ => 2100
  | .genl_ctrl_resolve _ _ => 27
  | _ => 0

/-- An environment where everything succeeds; the kernel answers a CONNECT
with index 0; four device slots. -/
def envOk : Env :=
  { sys := okSys
    errno := fun _ => 0
    reply := fun _ _ => some { nla_parse := 0, index := some 0 }
    parse_nbd_index := sampleParse
    get_nbd_max_count := 4 }

/-- As `envOk`, but the `NBD_DISCONNECT` instruction fails (device not in
use) with `errno = EINVAL`. -/
def envDisconnectFails : Env :=
  { envOk with
    sys := fun h c =>
      match c with
      | .ioctl _ .NBD_DISCONNECT _ => -1
      | _ => okSys h c
    errno := fun _ => 22 }

/-- As `envOk`, but the `NBD_SET_FLAGS` instruction fails with
`errno = EINVAL`. -/
def envSetFlagsFails : Env :=
  { envOk with
    sys := fun h c =>
      match c with
      | .ioctl _ .NBD_SET_FLAGS _ => -1
      | _ => okSys h c
    errno := fun _ => 22 }

/-- As `envOk`, but the nbd family is unknown to the kernel:
`genl_ctrl_resolve` returns `-NLE_OBJ_NOTFOUND`, which is -12. -/
def envNoFamily : Env :=
  { envOk with
    sys := fun h c =>
      match c with
      | .genl_ctrl_resolve _ _ => -12
      | _ => okSys h c }

/-- As `envOk`, but the valid message answering a CONNECT carries no index
attribute. -/
def envNoIndexReply : Env :=
  { envOk with reply := fun _ _ => some { nla_parse := 0, index := none } }

/-- As `envOk`, but slot `k` opens as descriptor `3 + k` and slots 0 and 1
are busy: `NBD_SET_SOCK` fails on their descriptors. -/
def envBusy01 : Env :=
  { envOk with
    sys := fun h c =>
      match c with
      | .open p => 3 + sampleParse p
      | .ioctl fd .NBD_SET_SOCK _ => if fd = 3 ∨ fd = 4 then -1 else 0
      | _ => okSys h c
    errno := fun _ => 16 }

/-- As `envOk`, but no device node can be opened. -/
def envNoDevice : Env :=
  { envOk with
    sys := fun h c =>
      match c with
      | .open _ => -1
      | _ => okSys h c
    errno := fun _ => 2 }

/-! ## Lemmas on the device-control strategy -/

@[simp] theorem World.call_fst (env : Env) (w : World) (c : Call) :
    (w.call env c).1 = env.sys w.trace c := rfl

@[simp] theorem World.call_trace (env : Env) (w : World) (c : Call) :
    (w.call env c).2.trace = w.trace ++ [c] := rfl

@[simp] theorem World.call_log (env : Env) (w : World) (c : Call) :
    (w.call env c).2.log = w.log := rfl

@[simp] theorem World.dout_trace (w : World) (msg : String) :
    (w.dout msg).trace = w.trace := rfl

@[simp] theorem World.dout_log (w : World) (msg : String) :
    (w.dout msg).log = w.log ++ [msg] := rfl

/-- A claim attempt either succeeds, returning 0 with a non-negative
descriptor and index, or returns -1 and leaves the object as it was. -/
theorem IOController.MapOnNbdDeviceByDevPath_cases (env : Env) (sockfd : Int)
    (devpath : String) (lg : Bool) (self : NBDController) (w : World) :
    let r := IOController.MapOnNbdDeviceByDevPath env sockfd devpath lg self w
    (r.ret = 0 ∧ 0 ≤ r.self.nbdFd_ ∧ 0 ≤ r.self.nbdIndex_) ∨ (r.ret = -1 ∧ r.self = self) := by
  unfold IOController.MapOnNbdDeviceByDevPath
  simp only []
  split_ifs <;> simp_all

/-- The scan either succeeds, returning 0 with a non-negative descriptor and
index, or returns -1 and leaves the object as it was. -/
theorem IOController.MapOnUnusedNbdDevice.loop_cases (env : Env) (sockfd : Int)
    (devpath : String) (remaining : Nat) :
    ∀ (index : Nat) (self : NBDController) (w : World),
    let r := IOController.MapOnUnusedNbdDevice.loop env sockfd devpath remaining index self w
    (r.ret = 0 ∧ 0 ≤ r.self.nbdFd_ ∧ 0 ≤ r.self.nbdIndex_) ∨ (r.ret = -1 ∧ r.self = self) := by
  induction remaining with
  | zero => intro index self w; simp [IOController.MapOnUnusedNbdDevice.loop]
  | succ n ih =>
    intro index self w
    have h := IOController.MapOnNbdDeviceByDevPath_cases env sockfd (devName index) false self w
    simp only [IOController.MapOnUnusedNbdDevice.loop]
    simp only [] at h
    split_ifs with hneg
    · rcases h with h | h
      · omega
      · have := ih (index + 1)
          (IOController.MapOnNbdDeviceByDevPath env sockfd (devName index) false self w).self
          (IOController.MapOnNbdDeviceByDevPath env sockfd (devName index) false self w).w
        simp only [] at this
        rw [h.2] at this
        rw [h.2]
        exact this
    · rcases h with h | h
      · left; exact ⟨rfl, h.2⟩
      · omega

/-- Legacy `SetUp` on any object either returns 0 with a non-negative
descriptor and index, or returns a negative value; in the second case the
object is either reset to the unattached state or left as it was. -/
theorem IOController.SetUp_legacy_cases (env : Env) (config : NBDConfig) (sockfd : Int)
    (size blocksize flags : Nat) (self : NBDController) (w : World) :
    let r := IOController.SetUp env config sockfd size blocksize flags self w
    (r.ret = 0 ∧ 0 ≤ r.self.nbdFd_ ∧ 0 ≤ r.self.nbdIndex_) ∨
      (r.ret < 0 ∧ (r.self = NBDController.new ∨ r.self = self)) := by
  have h1 := IOController.MapOnUnusedNbdDevice.loop_cases env sockfd config.devpath
    env.get_nbd_max_count.toNat 0 self w
  have h2 := IOController.MapOnNbdDeviceByDevPath_cases env sockfd config.devpath true self w
  simp only [] at h1 h2
  unfold IOController.SetUp IOController.MapOnUnusedNbdDevice
  simp only []
  by_cases hp : config.devpath = ""
  · simp only [hp, if_true] at h1 ⊢
    rcases h1 with h | h <;> split_ifs <;> simp_all [NBDController.new]
  · simp only [hp, if_false]
    rcases h2 with h | h <;> split_ifs <;> simp_all [NBDController.new]

/-! ## Lemmas on the messaging strategy -/

/-- `Init` returns 0 or -1 and never touches the device handle. -/
theorem NetLinkController.Init_cases (env : Env) (self : NetLinkController) (w : World) :
    let i := NetLinkController.Init env self w
    (i.ret = 0 ∨ i.ret = -1) ∧ i.self.toNBDController = self.toNBDController := by
  unfold NetLinkController.Init
  simp only []
  split_ifs <;> simp

/-- `Uninit` never touches the device handle. -/
theorem NetLinkController.Uninit_handle (env : Env) (self : NetLinkController) (w : World) :
    (NetLinkController.Uninit env self w).1.toNBDController = self.toNBDController := by
  unfold NetLinkController.Uninit
  split_ifs <;> simp

/-- `ConnectInternal` returns 0, `-EIO` or `-ENOMEM`. -/
theorem NetLinkController.ConnectInternal_ret (env : Env) (config : NBDConfig) (sockfd : Int)
    (size blocksize flags : Nat) (self : NetLinkController) (w : World) :
    let c := NetLinkController.ConnectInternal env config sockfd size blocksize flags self w
    c.ret = 0 ∨ c.ret < 0 := by
  unfold NetLinkController.ConnectInternal
  simp only []
  split_ifs
  · right; simp [ENOMEM]
  · cases NetLinkController.ConnectInternal.build env config sockfd size blocksize flags self
      (World.call env (World.call env w
        (Call.nl_socket_modify_cb self.sock_ Callback.netlink_connect_cb)).2
        Call.nlmsg_alloc).2 with
    | error w1 => right; simp [ EIO]
    | ok b =>
      simp only []
      split_ifs
      · right; simp [ EIO]
      · left; rfl

/-- Messaging `SetUp` on any object either returns 0 with a non-negative
descriptor and index, or returns a negative value and leaves the device
handle as it was. -/
theorem NetLinkController.SetUp_netlink_cases (env : Env) (config : NBDConfig) (sockfd : Int)
    (size blocksize flags : Nat) (self : NetLinkController) (w : World) :
    let r := NetLinkController.SetUp env config sockfd size blocksize flags self w
    (r.ret = 0 ∧ 0 ≤ r.self.nbdFd_ ∧ 0 ≤ r.self.nbdIndex_) ∨
      (r.ret < 0 ∧ r.self.toNBDController = self.toNBDController) := by
  have hi := NetLinkController.Init_cases env self w
  have hc := NetLinkController.ConnectInternal_ret env config sockfd size blocksize flags
    (NetLinkController.Init env self w).self (NetLinkController.Init env self w).w
  have hu := NetLinkController.Uninit_handle env (NetLinkController.Init env self w).self
    (NetLinkController.ConnectInternal env config sockfd size blocksize flags
      (NetLinkController.Init env self w).self (NetLinkController.Init env self w).w).w
  simp only [] at hi hc
  unfold NetLinkController.SetUp
  simp only []
  split_ifs <;> simp_all

/-- A successful claim records the parsed index and the opened descriptor;
a failed one returns -1 and leaves the object as it was. -/
theorem IOController.MapOnNbdDeviceByDevPath_index (env : Env) (sockfd : Int)
    (devpath : String) (lg : Bool) (self : NBDController) (w : World) :
    let r := IOController.MapOnNbdDeviceByDevPath env sockfd devpath lg self w
    (0 ≤ r.ret → r.ret = 0 ∧ r.self.nbdIndex_ = env.parse_nbd_index devpath ∧
      0 ≤ r.self.nbdFd_) ∧
    (r.ret < 0 → r.self = self) := by
  unfold IOController.MapOnNbdDeviceByDevPath
  simp only []
  split_ifs <;> simp_all

/-- The scan loop entered at slot `k` in the world reached after the slots
below `k` were tried: if no slot in `[k, k + remaining)` is claimable it
fails after trying them all, otherwise it stops at the least claimable one. -/
theorem IOController.MapOnUnusedNbdDevice.loop_spec (env : Env) (sockfd : Int)
    (devpath : String) (self : NBDController) (w : World) (remaining : Nat) :
    ∀ k : Nat,
    let r := IOController.MapOnUnusedNbdDevice.loop env sockfd devpath remaining k self
      (scanWorld env sockfd self w k)
    ((∀ i, k ≤ i → i < k + remaining → ¬ claimable env sockfd self w i) →
      r.ret = -1 ∧ r.devpath = devpath ∧ r.self = self ∧
      r.w.trace = (scanWorld env sockfd self w (k + remaining)).trace) ∧
    (∀ i, k ≤ i → i < k + remaining → claimable env sockfd self w i →
      (∀ j, k ≤ j → j < i → ¬ claimable env sockfd self w j) →
      r.ret = 0 ∧ r.devpath = devName i ∧
      r.self = (IOController.MapOnNbdDeviceByDevPath env sockfd (devName i) false self
        (scanWorld env sockfd self w i)).self ∧
      r.w = (IOController.MapOnNbdDeviceByDevPath env sockfd (devName i) false self
        (scanWorld env sockfd self w i)).w) := by
  induction remaining with
  | zero =>
    intro k
    rw [IOController.MapOnUnusedNbdDevice.loop]
    refine ⟨fun _ => ⟨rfl, rfl, rfl, rfl⟩, ?_⟩
    intro i h1 h2
    omega
  | succ n ih =>
    intro k
    have hs := (IOController.MapOnNbdDeviceByDevPath_index env sockfd (devName k) false self
      (scanWorld env sockfd self w k)).2
    simp only [] at hs
    rw [IOController.MapOnUnusedNbdDevice.loop]
    by_cases hk : claimable env sockfd self w k
    · have hk' : ¬ (IOController.MapOnNbdDeviceByDevPath env sockfd (devName k) false self
          (scanWorld env sockfd self w k)).ret < 0 := by
        unfold claimable at hk; omega
      rw [if_neg hk']
      refine ⟨fun h => absurd hk (h k (le_refl k) (by omega)), ?_⟩
      intro i h1 h2 hi hleast
      have hik : i = k := by
        by_contra hne
        exact hleast k (le_refl k) (by omega) hk
      subst hik
      exact ⟨rfl, rfl, rfl, rfl⟩
    · have hk' : (IOController.MapOnNbdDeviceByDevPath env sockfd (devName k) false self
          (scanWorld env sockfd self w k)).ret < 0 := by
        unfold claimable at hk; omega
      rw [if_pos hk', hs hk']
      have ih' := ih (k + 1)
      simp only [scanWorld] at ih'
      refine ⟨fun h => ?_, ?_⟩
      · have := ih'.1 (fun i h1 h2 => h i (by omega) (by omega))
        rw [show k + (n + 1) = k + 1 + n by omega]
        exact this
      · intro i h1 h2 hi hleast
        have hik : k ≠ i := fun e => hk (e ▸ hi)
        exact ih'.2 i (by omega) (by omega) hi (fun j h3 h4 => hleast j (by omega) h4)

/-- A trace which extends `a` and is a prefix of `a ++ e` is `a` followed by
a prefix of `e`. -/
theorem trace_between {a t e : List Call} (h1 : a <+: t) (h2 : t <+: a ++ e) :
    ∃ l, t = a ++ l ∧ l <+: e := by
  obtain ⟨l, rfl⟩ := h1
  exact ⟨l, rfl, (List.prefix_append_right_inj a).1 h2⟩

/-- Sequencing of two stretches of message construction. -/
theorem Tracks.bind {t : List Call} {m1 m2 : NlMsg} {e e1 e2 : List Call}
    {x : Except World Build} {f : Build → Except World Build}
    (hx : Tracks t m1 e1 x)
    (hf : ∀ b, b.msg = m1 → b.w.trace = t ++ e1 → Tracks (t ++ e1) m2 e2 (f b))
    (he : e = e1 ++ e2) : Tracks t m2 e (x >>= f) := by
  subst he
  cases x with
  | error w1 =>
    obtain ⟨h1, h2⟩ := hx
    refine ⟨h1, h2.trans ?_⟩
    rw [← List.append_assoc]
    exact List.prefix_append _ _
  | ok b =>
    obtain ⟨h1, h2⟩ := hx
    have h := hf b h1 h2
    show Tracks t m2 (e1 ++ e2) (f b)
    cases hfb : f b with
    | error w1 =>
      rw [hfb] at h
      obtain ⟨h3, h4⟩ := h
      refine ⟨(List.prefix_append t e1).trans h3, ?_⟩
      rw [← List.append_assoc]
      exact h4
    | ok b2 =>
      rw [hfb] at h
      obtain ⟨h3, h4⟩ := h
      exact ⟨h3, by rw [h4, List.append_assoc]⟩

theorem genlmsg_put_tracks (env : Env) (family : Int) (cmd : Cmd) (b : Build)
    (t : List Call) (hd : Option (Int × Cmd)) (bd : List Item)
    (hm : b.msg = ⟨hd, bd⟩) (ht : b.w.trace = t) :
    Tracks t ⟨some (family, cmd), bd⟩ [.genlmsg_put family cmd]
      (genlmsg_put env family cmd b) := by
  subst ht
  unfold genlmsg_put
  simp only []
  split_ifs <;> simp [Tracks, hm]

theorem NLA_PUT_U32_tracks (env : Env) (a : AttrType) (v : Nat) (b : Build)
    (t : List Call) (hd : Option (Int × Cmd)) (bd : List Item)
    (hm : b.msg = ⟨hd, bd⟩) (ht : b.w.trace = t) :
    Tracks t ⟨hd, bd ++ [.u32 a v]⟩ [.nla_put_u32 a v] (NLA_PUT_U32 env a v b) := by
  subst ht
  unfold NLA_PUT_U32
  simp only []
  split_ifs <;> simp [Tracks, hm]

theorem NLA_PUT_U64_tracks (env : Env) (a : AttrType) (v : Nat) (b : Build)
    (t : List Call) (hd : Option (Int × Cmd)) (bd : List Item)
    (hm : b.msg = ⟨hd, bd⟩) (ht : b.w.trace = t) :
    Tracks t ⟨hd, bd ++ [.u64 a v]⟩ [.nla_put_u64 a v] (NLA_PUT_U64 env a v b) := by
  subst ht
  unfold NLA_PUT_U64
  simp only []
  split_ifs <;> simp [Tracks, hm]

theorem nla_nest_start_tracks (env : Env) (a : AttrType) (diag : String) (b : Build)
    (t : List Call) (hd : Option (Int × Cmd)) (bd : List Item)
    (hm : b.msg = ⟨hd, bd⟩) (ht : b.w.trace = t) :
    Tracks t ⟨hd, bd ++ [.nest_start a]⟩ [.nla_nest_start a]
      (nla_nest_start env a diag b) := by
  subst ht
  unfold nla_nest_start
  simp only []
  split_ifs <;> simp [Tracks, hm]

theorem nla_nest_end_tracks (env : Env) (a a2 : AttrType) (b : Build)
    (t : List Call) (hd : Option (Int × Cmd)) (bd : List Item)
    (hm : b.msg = ⟨hd, bd⟩) (ht : b.w.trace = t) :
    Tracks t ⟨hd, bd ++ [.nest_end a, .nest_end a2]⟩ [.nla_nest_end a, .nla_nest_end a2]
      (pure (nla_nest_end env a2 (nla_nest_end env a b))) := by
  subst ht
  simp [Tracks, nla_nest_end, pure, Except.pure, hm]

/-- The construction of the CONNECT message: when it completes, the message
has the CONNECT header and the attribute stream `connectBody`, with the
timeout attribute present exactly when the configured timeout is not
negative, and the encoding calls are those of this stream, in order; when it
is abandoned, the encoding calls made are a prefix of them. -/
theorem connectBuild_tracks (env : Env) (config : NBDConfig) (sockfd : Int)
    (size blocksize flags : Nat) (self : NetLinkController) (w : World) :
    Tracks w.trace
      ⟨some (self.nlId_, .NBD_CMD_CONNECT),
        connectBody env config sockfd size blocksize flags
          (if 0 ≤ config.timeout then [.u64 .NBD_ATTR_TIMEOUT (toU64 config.timeout)] else [])⟩
      (Call.genlmsg_put self.nlId_ .NBD_CMD_CONNECT ::
        (connectBody env config sockfd size blocksize flags
          (if 0 ≤ config.timeout then [.u64 .NBD_ATTR_TIMEOUT (toU64 config.timeout)]
            else [])).map Item.toCall)
      (NetLinkController.ConnectInternal.build env config sockfd size blocksize flags
        self w) := by
  have hidx : ∀ (b : Build) (t : List Call) (hd : Option (Int × Cmd)) (bd : List Item),
      b.msg = ⟨hd, bd⟩ → b.w.trace = t →
      Tracks t
        ⟨hd, bd ++ (if config.devpath ≠ "" then
          [Item.u32 .NBD_ATTR_INDEX (toU32 (env.parse_nbd_index config.devpath))] else [])⟩
        (if config.devpath ≠ "" then
          [Call.nla_put_u32 .NBD_ATTR_INDEX (toU32 (env.parse_nbd_index config.devpath))]
          else [])
        (if config.devpath ≠ "" then
          (if env.parse_nbd_index config.devpath < 0 then Except.error b.w
           else NLA_PUT_U32 env .NBD_ATTR_INDEX (toU32 (env.parse_nbd_index config.devpath)) b)
         else Except.ok b) := by
    intro b t hd bd hm ht
    by_cases hp : config.devpath = ""
    · subst ht; simp [hp, Tracks, hm]
    · by_cases hx : env.parse_nbd_index config.devpath < 0
      · subst ht; simp [hp, hx, Tracks]
      · simp only [ne_eq, hp, not_false_eq_true, if_true, hx, if_false]
        exact NLA_PUT_U32_tracks env _ _ b t hd bd hm ht
  have htmo : ∀ (b : Build) (t : List Call) (hd : Option (Int × Cmd)) (bd : List Item),
      b.msg = ⟨hd, bd⟩ → b.w.trace = t →
      Tracks t
        ⟨hd, bd ++ (if 0 ≤ config.timeout then
          [Item.u64 .NBD_ATTR_TIMEOUT (toU64 config.timeout)] else [])⟩
        (if 0 ≤ config.timeout then
          [Call.nla_put_u64 .NBD_ATTR_TIMEOUT (toU64 config.timeout)] else [])
        (if config.timeout ≥ 0 then
          NLA_PUT_U64 env .NBD_ATTR_TIMEOUT (toU64 config.timeout) b
         else Except.ok b) := by
    intro b t hd bd hm ht
    by_cases hx : 0 ≤ config.timeout
    · simp only [ge_iff_le, hx, if_true]
      exact NLA_PUT_U64_tracks env _ _ b t hd bd hm ht
    · subst ht; simp [hx, Tracks, hm]
  have key := Tracks.bind (e := _) (genlmsg_put_tracks env self.nlId_ .NBD_CMD_CONNECT
      ⟨⟨none, []⟩, w⟩ w.trace none [] rfl rfl)
    (fun b hm ht => Tracks.bind (e := _) (hidx b _ _ _ hm ht)
    (fun b hm ht => Tracks.bind (e := _) (htmo b _ _ _ hm ht)
    (fun b hm ht => Tracks.bind (e := _)
      (NLA_PUT_U64_tracks env .NBD_ATTR_SIZE_BYTES size b _ _ _ hm ht)
    (fun b hm ht => Tracks.bind (e := _)
      (NLA_PUT_U64_tracks env .NBD_ATTR_BLOCK_SIZE_BYTES blocksize b _ _ _ hm ht)
    (fun b hm ht => Tracks.bind (e := _)
      (NLA_PUT_U64_tracks env .NBD_ATTR_SERVER_FLAGS flags b _ _ _ hm ht)
    (fun b hm ht => Tracks.bind (e := _)
      (nla_nest_start_tracks env .NBD_ATTR_SOCKETS
        "curve-nbd: Could not init sockets in netlink message." b _ _ _ hm ht)
    (fun b hm ht => Tracks.bind (e := _)
      (nla_nest_start_tracks env .NBD_SOCK_ITEM
        "curve-nbd: Could not init sock in netlink message." b _ _ _ hm ht)
    (fun b hm ht => Tracks.bind (e := _)
      (NLA_PUT_U32_tracks env .NBD_SOCK_FD (toU32 sockfd) b _ _ _ hm ht)
    (fun b hm ht => nla_nest_end_tracks env .NBD_SOCK_ITEM .NBD_ATTR_SOCKETS b _ _ _ hm ht)
    rfl) rfl) rfl) rfl) rfl) rfl) rfl) rfl) rfl
  unfold NetLinkController.ConnectInternal.build
  convert key using 1
  · by_cases hp : config.devpath = "" <;> by_cases hx : 0 ≤ config.timeout <;>
      simp [connectBody, hp, hx]
  · by_cases hp : config.devpath = "" <;> by_cases hx : 0 ≤ config.timeout <;>
      simp [connectBody, hp, hx, Item.toCall]

/-- The callback of the CONNECT request issues no call, so a synchronous send
adds exactly the `nl_send_sync` call to the trace. -/
theorem nl_send_sync_connect_trace (env : Env) (sock : Int) (msg : NlMsg) (config : NBDConfig)
    (w : World) :
    (nl_send_sync env sock msg netlink_connect_cb config w).2.2.trace =
      w.trace ++ [.nl_send_sync sock msg] := by
  unfold nl_send_sync netlink_connect_cb
  simp only []
  cases env.reply w.trace msg with
  | none => rfl
  | some m =>
    simp only []
    cases m.index <;> split_ifs <;> simp_all

/-- The three ways `ConnectInternal` ends: the message cannot be allocated;
the construction is abandoned and the message freed; or the message is
complete and is sent.  In the first two the configuration is untouched and
nothing is sent. -/
theorem NetLinkController.ConnectInternal_cases (env : Env) (config : NBDConfig)
    (sockfd : Int) (size blocksize flags : Nat) (self : NetLinkController) (w : World) :
    let body := connectBody env config sockfd size blocksize flags
      (if 0 ≤ config.timeout then [.u64 .NBD_ATTR_TIMEOUT (toU64 config.timeout)] else [])
    let msg : NlMsg := ⟨some (self.nlId_, .NBD_CMD_CONNECT), body⟩
    let pre := w.trace ++ [.nl_socket_modify_cb self.sock_ .netlink_connect_cb, .nlmsg_alloc]
    let enc := Call.genlmsg_put self.nlId_ .NBD_CMD_CONNECT :: body.map Item.toCall
    let r := NetLinkController.ConnectInternal env config sockfd size blocksize flags self w
    (r.ret = -ENOMEM ∧ r.config = config ∧ r.w.trace = pre) ∨
    (∃ l, l <+: enc ∧ r.ret = - EIO ∧ r.config = config ∧
      r.w.trace = pre ++ l ++ [.nlmsg_free]) ∨
    (∃ wb : World, wb.trace = pre ++ enc ∧
      r.ret = (if (nl_send_sync env self.sock_ msg netlink_connect_cb config wb).1 < 0
        then - EIO else 0) ∧
      r.config = (nl_send_sync env self.sock_ msg netlink_connect_cb config wb).2.1 ∧
      r.w.trace = pre ++ enc ++ [.nl_send_sync self.sock_ msg]) := by
  have hb := connectBuild_tracks env config sockfd size blocksize flags self
    (World.call env (World.call env w
      (Call.nl_socket_modify_cb self.sock_ Callback.netlink_connect_cb)).2 Call.nlmsg_alloc).2
  simp only []
  generalize connectBody env config sockfd size blocksize flags
    (if 0 ≤ config.timeout then [.u64 .NBD_ATTR_TIMEOUT (toU64 config.timeout)] else []) = body
    at hb ⊢
  unfold NetLinkController.ConnectInternal
  simp only []
  split_ifs with hnull
  · left
    exact ⟨rfl, rfl, by simp⟩
  · right
    cases hbuild : NetLinkController.ConnectInternal.build env config sockfd size blocksize
        flags self (World.call env (World.call env w
          (Call.nl_socket_modify_cb self.sock_ Callback.netlink_connect_cb)).2
          Call.nlmsg_alloc).2 with
    | error w1 =>
      left
      rw [hbuild] at hb
      obtain ⟨l, hl, hpre⟩ := trace_between hb.1 hb.2
      refine ⟨l, hpre, rfl, rfl, ?_⟩
      simp only [World.call_trace, hl]
      simp
    | ok b =>
      right
      rw [hbuild] at hb
      obtain ⟨hm, ht⟩ := hb
      have htr : b.w.trace = w.trace ++
          [.nl_socket_modify_cb self.sock_ .netlink_connect_cb, .nlmsg_alloc] ++
          Call.genlmsg_put self.nlId_ .NBD_CMD_CONNECT :: body.map Item.toCall := by
        rw [ht]; simp
      refine ⟨b.w, htr, ?_, ?_, ?_⟩
      · simp only [hm]; split_ifs <;> rfl
      · simp only [hm]; split_ifs <;> rfl
      · simp only [hm]
        split_ifs <;>
          simp only [World.dout_trace, nl_send_sync_connect_trace, htr]

/-- `InitDevAttr` with a negative timeout issues a prefix of the four
timeout-independent attribute instructions, all four when it succeeds. -/
theorem IOController.InitDevAttr_no_timeout (env : Env) (config : NBDConfig)
    (size blocksize flags : Nat) (self : NBDController) (w : World)
    (h : config.timeout < 0) :
    let r := IOController.InitDevAttr env config size blocksize flags self w
    w.trace <+: r.2.trace ∧
    r.2.trace <+: w.trace ++ attrSequence self.nbdFd_ size blocksize flags ∧
    (0 ≤ r.1 → r.2.trace = w.trace ++ attrSequence self.nbdFd_ size blocksize flags) := by
  have h' : ¬ config.timeout ≥ 0 := by omega
  unfold IOController.InitDevAttr NBDController.CheckSetReadOnly
  simp only [h', if_false]
  split_ifs <;> simp_all [attrSequence]

/-- `InitDevAttr` with a timeout that is not negative behaves as without a
timeout, and then, if that did not fail, issues `NBD_SET_TIMEOUT`. -/
theorem IOController.InitDevAttr_timeout (env : Env) (config : NBDConfig)
    (size blocksize flags : Nat) (self : NBDController) (w : World)
    (h : 0 ≤ config.timeout) :
    let r0 := IOController.InitDevAttr env { config with timeout := -1 } size blocksize flags
      self w
    let r := IOController.InitDevAttr env config size blocksize flags self w
    (r0.1 < 0 → r = r0) ∧
    (0 ≤ r0.1 → r.2.trace =
      r0.2.trace ++ [.ioctl self.nbdFd_ .NBD_SET_TIMEOUT config.timeout]) := by
  have h' : config.timeout ≥ 0 := h
  have hm1 : ¬ ((-1 : Int) ≥ 0) := by decide
  unfold IOController.InitDevAttr
  simp only [h', hm1, if_true, if_false]
  generalize NBDController.CheckSetReadOnly env self.nbdFd_ flags
    (World.call env (World.call env (World.call env w
      (Call.ioctl self.nbdFd_ Req.NBD_SET_BLKSIZE blocksize)).2
      (Call.ioctl self.nbdFd_ Req.NBD_SET_SIZE size)).2
      (Call.ioctl self.nbdFd_ Req.NBD_SET_FLAGS flags)).2 = r4
  split_ifs with h1 h2 h4 h5 <;> first
    | exact ⟨fun _ => rfl, fun hc => absurd hc (by simp only [World.call_fst] at *; omega)⟩
    | exact ⟨fun hc => absurd hc (by omega), fun _ => rfl⟩

/-- `Init` and `Uninit` issue session calls only. -/
theorem NetLinkController.Init_trace (env : Env) (self : NetLinkController) (w : World) :
    ∃ l, (NetLinkController.Init env self w).w.trace = w.trace ++ l ∧
      ∀ x ∈ l, x.isSession = true := by
  unfold NetLinkController.Init
  simp only []
  split_ifs
  · exact ⟨[], by simp, by simp⟩
  · exact ⟨[.nl_socket_alloc], by simp, by simp [Call.isSession]⟩
  · exact ⟨[.nl_socket_alloc, .genl_connect (env.sys w.trace .nl_socket_alloc),
      .nl_socket_free (env.sys w.trace .nl_socket_alloc)], by simp,
      by simp [Call.isSession]⟩
  · exact ⟨[.nl_socket_alloc, .genl_connect (env.sys w.trace .nl_socket_alloc),
      .genl_ctrl_resolve (env.sys w.trace .nl_socket_alloc) "nbd",
      .nl_close (env.sys w.trace .nl_socket_alloc),
      .nl_socket_free (env.sys w.trace .nl_socket_alloc)], by simp,
      by simp [Call.isSession]⟩
  · exact ⟨[.nl_socket_alloc, .genl_connect (env.sys w.trace .nl_socket_alloc),
      .genl_ctrl_resolve (env.sys w.trace .nl_socket_alloc) "nbd"], by simp,
      by simp [Call.isSession]⟩

theorem NetLinkController.Uninit_trace (env : Env) (self : NetLinkController) (w : World) :
    ∃ l, (NetLinkController.Uninit env self w).2.trace = w.trace ++ l ∧
      ∀ x ∈ l, x.isSession = true := by
  unfold NetLinkController.Uninit
  split_ifs
  · exact ⟨[], by simp, by simp⟩
  · exact ⟨[.nl_close self.sock_, .nl_socket_free self.sock_], by simp,
      by simp [Call.isSession]⟩

/-- `ConnectInternal` opens no device node. -/
theorem NetLinkController.ConnectInternal_opens_nothing (env : Env) (config : NBDConfig)
    (sockfd : Int) (size blocksize flags : Nat) (self : NetLinkController) (w : World) :
    ∃ l, (NetLinkController.ConnectInternal env config sockfd size blocksize flags
        self w).w.trace = w.trace ++ l ∧ ∀ p, Call.open p ∉ l := by
  have hc := NetLinkController.ConnectInternal_cases env config sockfd size blocksize flags
    self w
  have henc : ∀ (p : String) (f : Int) (c : Cmd) (body : List Item),
      Call.open p ∉ Call.genlmsg_put f c :: body.map Item.toCall := by
    intro p f c body hmem
    simp only [List.mem_cons, reduceCtorEq, List.mem_map, false_or] at hmem
    obtain ⟨it, -, hit⟩ := hmem
    cases it <;> simp [Item.toCall] at hit
  simp only [] at hc
  rcases hc with ⟨-, -, htr⟩ | ⟨l, hl, -, -, htr⟩ | ⟨wb, -, -, -, htr⟩
  · exact ⟨_, htr, by simp⟩
  · refine ⟨_, by rw [htr, List.append_assoc, List.append_assoc], ?_⟩
    intro p hmem
    simp only [List.cons_append, List.nil_append, List.mem_cons, List.mem_append,
      List.mem_singleton, reduceCtorEq, false_or, or_false, List.not_mem_nil] at hmem
    exact henc p _ _ _ (hl.subset hmem)
  · refine ⟨_, by rw [htr, List.append_assoc, List.append_assoc], ?_⟩
    intro p hmem
    simp only [List.cons_append, List.nil_append, List.mem_cons, List.mem_append,
      List.mem_singleton, reduceCtorEq, false_or, or_false, List.not_mem_nil] at hmem
    exact henc p self.nlId_ .NBD_CMD_CONNECT _ (List.mem_cons_of_mem _ hmem)

/-- Operations other than `SetUp` and `ClearUp` leave the handle alone. -/
theorem IOController.DisconnectByPath_self (env : Env) (devpath : String)
    (self : NBDController) (w : World) :
    (IOController.DisconnectByPath env devpath self w).self = self := by
  unfold IOController.DisconnectByPath
  simp only []
  split_ifs <;> rfl

theorem IOController.Resize_self (env : Env) (size : Nat) (self : NBDController) (w : World) :
    (IOController.Resize env size self w).self = self := by
  unfold IOController.Resize
  split_ifs <;> rfl

theorem NetLinkController.DisconnectByPath_handle (env : Env) (devpath : String)
    (self : NetLinkController) (w : World) :
    (NetLinkController.DisconnectByPath env devpath self w).self.toNBDController =
      self.toNBDController := by
  have hi := (NetLinkController.Init_cases env self w).2
  unfold NetLinkController.DisconnectByPath
  simp only []
  split_ifs
  · rfl
  · exact hi
  · simp only [NetLinkController.Uninit_handle]; exact hi

theorem NetLinkController.Resize_handle (env : Env) (size : Nat)
    (self : NetLinkController) (w : World) :
    (NetLinkController.Resize env size self w).self.toNBDController =
      self.toNBDController := by
  have hi := (NetLinkController.Init_cases env self w).2
  unfold NetLinkController.Resize
  simp only []
  split_ifs
  · rfl
  · exact hi
  · simp only [NetLinkController.Uninit_handle]; exact hi

theorem NetLinkController.Support_handle (env : Env) (self : NetLinkController) (w : World) :
    (NetLinkController.Support env self w).2.1.toNBDController = self.toNBDController := by
  have hi := (NetLinkController.Init_cases env self w).2
  unfold NetLinkController.Support
  simp only []
  split_ifs
  · exact hi
  · simp only [NetLinkController.Uninit_handle]; exact hi

/-- `ClearUp` leaves the handle unattached or as it was. -/
theorem NBDController.ClearUp_cases (env : Env) (self : NBDController) (w : World) :
    (NBDController.ClearUp env self w).1 = NBDController.new ∨
      ((NBDController.ClearUp env self w).1 = self ∧ self.nbdFd_ < 0) := by
  unfold NBDController.ClearUp
  split_ifs with h
  · exact Or.inr ⟨rfl, h⟩
  · exact Or.inl rfl

/-- Handle invariant of `IOController`: descriptor and index are both -1 or
both non-negative in every reachable state. -/
theorem IOController.Reachable.io_handle {s : NBDController} {w : World}
    (h : IOController.Reachable s w) :
    s = NBDController.new ∨ (0 ≤ s.nbdFd_ ∧ 0 ≤ s.nbdIndex_) := by
  induction h with
  | new w => exact Or.inl rfl
  | @SetUp s w env config sockfd size blocksize flags _ ih =>
    have hc := IOController.SetUp_legacy_cases env config sockfd size blocksize flags s w
    simp only [] at hc
    rcases hc with hc | ⟨-, hc | hc⟩
    · exact Or.inr hc.2
    · exact Or.inl hc
    · rw [hc]; exact ih
  | DisconnectByPath env devpath _ ih => rw [IOController.DisconnectByPath_self]; exact ih
  | Resize env size _ ih => rw [IOController.Resize_self]; exact ih
  | RunUntilQuit env _ ih => exact ih
  | CheckSetReadOnly env nbdfd flag _ ih => exact ih
  | @ClearUp s w env _ ih =>
    rcases NBDController.ClearUp_cases env s w with hc | hc
    · exact Or.inl hc
    · rw [hc.1]; exact ih

/-- Handle invariant of `NetLinkController`. -/
theorem NetLinkController.Reachable.nl_handle {s : NetLinkController} {w : World}
    (h : NetLinkController.Reachable s w) :
    s.toNBDController = NBDController.new ∨ (0 ≤ s.nbdFd_ ∧ 0 ≤ s.nbdIndex_) := by
  induction h with
  | new w => exact Or.inl rfl
  | @SetUp s w env config sockfd size blocksize flags _ ih =>
    have hc := NetLinkController.SetUp_netlink_cases env config sockfd size blocksize flags s w
    simp only [] at hc
    rcases hc with hc | ⟨-, hc⟩
    · exact Or.inr hc.2
    · rw [hc]; exact ih
  | DisconnectByPath env devpath _ ih =>
    rw [NetLinkController.DisconnectByPath_handle]; exact ih
  | Resize env size _ ih => rw [NetLinkController.Resize_handle]; exact ih
  | Support env _ ih => rw [NetLinkController.Support_handle]; exact ih
  | RunUntilQuit env _ ih => exact ih
  | CheckSetReadOnly env nbdfd flag _ ih => exact ih
  | @ClearUp s w env _ ih =>
    rcases NBDController.ClearUp_cases env s.toNBDController w with hc | hc
    · exact Or.inl hc
    · left
      show (NBDController.ClearUp env s.toNBDController w).1 = NBDController.new
      rw [hc.1]
      rcases ih with ih | ih
      · exact ih
      · omega

/-- When every valid reply lacks the index attribute, the synchronous send
of a CONNECT message reports the callback's error and the configuration is
not modified. -/
theorem nl_send_sync_no_index (env : Env) (sock : Int) (msg : NlMsg) (config : NBDConfig)
    (w : World) (hreply : ∃ rp, env.reply w.trace msg = some rp ∧ rp.index = none) :
    (nl_send_sync env sock msg netlink_connect_cb config w).1 < 0 ∧
    (nl_send_sync env sock msg netlink_connect_cb config w).2.1 = config := by
  obtain ⟨rp, hrp, hidx⟩ := hreply
  unfold nl_send_sync netlink_connect_cb
  simp only [hrp, hidx]
  split_ifs <;> simp_all [NLE_MSGTYPE_NOSUPPORT]

/-- Once a slot has been claimed, a negative result of `InitDevAttr` makes
Legacy `SetUp` return that result after issuing `NBD_CLEAR_SOCK` and `close`
on the claimed node, with the handle reset. -/
theorem IOController.SetUp_attr_failure (env : Env) (config : NBDConfig) (sockfd : Int)
    (size blocksize flags : Nat) (self : NBDController) (w : World)
    (hpath : config.devpath ≠ "")
    (hclaim : 0 ≤ (IOController.MapOnNbdDeviceByDevPath env sockfd config.devpath true
      self w).ret)
    (hattr : (IOController.InitDevAttr env config size blocksize flags
      (IOController.MapOnNbdDeviceByDevPath env sockfd config.devpath true self w).self
      (IOController.MapOnNbdDeviceByDevPath env sockfd config.devpath true self w).w).1 < 0) :
    (IOController.SetUp env config sockfd size blocksize flags self w).ret =
      (IOController.InitDevAttr env config size blocksize flags
        (IOController.MapOnNbdDeviceByDevPath env sockfd config.devpath true self w).self
        (IOController.MapOnNbdDeviceByDevPath env sockfd config.devpath true self w).w).1 ∧
    (IOController.SetUp env config sockfd size blocksize flags self w).self =
      NBDController.new ∧
    (IOController.SetUp env config sockfd size blocksize flags self w).w.trace =
      (IOController.InitDevAttr env config size blocksize flags
        (IOController.MapOnNbdDeviceByDevPath env sockfd config.devpath true self w).self
        (IOController.MapOnNbdDeviceByDevPath env sockfd config.devpath true self w).w).2.trace
      ++ [.ioctl (IOController.MapOnNbdDeviceByDevPath env sockfd config.devpath true
            self w).self.nbdFd_ .NBD_CLEAR_SOCK 0,
          .close (IOController.MapOnNbdDeviceByDevPath env sockfd config.devpath true
            self w).self.nbdFd_] := by
  have hclaim' : ¬ (IOController.MapOnNbdDeviceByDevPath env sockfd config.devpath true
      self w).ret < 0 := by omega
  unfold IOController.SetUp
  simp only [hpath, if_false, hclaim', hattr, if_true]
  simp [NBDController.new]

/-- `Init` on a controller without a session: when it fails there is still
no channel, and the family identifier is either untouched or the negative
result of the failed resolution; when it succeeds, `Uninit` closes the channel
and resets the identifier to -1. -/
theorem NetLinkController.Init_session (env : Env) (self : NetLinkController) (w : World)
    (hs : self.sock_ = nullptr) :
    ((NetLinkController.Init env self w).ret < 0 →
      (NetLinkController.Init env self w).self.sock_ = nullptr ∧
      ((NetLinkController.Init env self w).self.nlId_ = self.nlId_ ∨
        (NetLinkController.Init env self w).self.nlId_ < 0)) ∧
    (¬ (NetLinkController.Init env self w).ret < 0 → ∀ w2 : World,
      (NetLinkController.Uninit env (NetLinkController.Init env self w).self w2).1.sock_ =
        nullptr ∧
      (NetLinkController.Uninit env (NetLinkController.Init env self w).self w2).1.nlId_ =
        -1) := by
  unfold NetLinkController.Init
  simp only [hs, ne_eq, not_true_eq_false, if_false]
  split_ifs with h1 h2 h3
  · simp [hs]
  · simp [hs]
  · simp only [World.call_fst, World.call_trace, List.append_assoc,
      List.singleton_append] at h3
    simp [hs, h3]
  · simp only [World.call_fst] at h1
    simp [NetLinkController.Uninit, h1]

/-- Session invariant of `NetLinkController` as the code keeps it: in every
reachable state the channel is null and the family identifier is negative. -/
theorem NetLinkController.Reachable.session {s : NetLinkController} {w : World}
    (h : NetLinkController.Reachable s w) : s.sock_ = nullptr ∧ s.nlId_ < 0 := by
  induction h with
  | new w => exact ⟨rfl, by decide⟩
  | @SetUp s w env config sockfd size blocksize flags _ ih =>
    have hi := NetLinkController.Init_session env s w ih.1
    unfold NetLinkController.SetUp
    simp only []
    by_cases h1 : (NetLinkController.Init env s w).ret < 0
    · rw [if_pos h1]
      have := hi.1 h1
      exact ⟨this.1, this.2.elim (fun h => lt_of_eq_of_lt h ih.2) (fun h => h)⟩
    · rw [if_neg h1]
      have hu := hi.2 h1 (NetLinkController.ConnectInternal env config sockfd size blocksize
        flags (NetLinkController.Init env s w).self (NetLinkController.Init env s w).w).w
      split_ifs <;> exact ⟨hu.1, by simp only [hu.2]; decide⟩
  | @DisconnectByPath s w env devpath _ ih =>
    have hi := NetLinkController.Init_session env s w ih.1
    unfold NetLinkController.DisconnectByPath
    simp only []
    by_cases h0 : env.parse_nbd_index devpath < 0
    · rw [if_pos h0]; exact ih
    · rw [if_neg h0]
      by_cases h1 : (NetLinkController.Init env s w).ret < 0
      · rw [if_pos h1]
        have := hi.1 h1
        exact ⟨this.1, this.2.elim (fun h => lt_of_eq_of_lt h ih.2) (fun h => h)⟩
      · rw [if_neg h1]
        have hu := hi.2 h1 (NetLinkController.DisconnectInternal env
          (env.parse_nbd_index devpath) (NetLinkController.Init env s w).self
          (NetLinkController.Init env s w).w).2
        exact ⟨hu.1, by simp only [hu.2]; decide⟩
  | @Resize s w env size _ ih =>
    have hi := NetLinkController.Init_session env s w ih.1
    unfold NetLinkController.Resize
    simp only []
    by_cases h0 : s.nbdIndex_ < 0
    · rw [if_pos h0]; exact ih
    · rw [if_neg h0]
      by_cases h1 : (NetLinkController.Init env s w).ret < 0
      · rw [if_pos h1]
        have := hi.1 h1
        exact ⟨this.1, this.2.elim (fun h => lt_of_eq_of_lt h ih.2) (fun h => h)⟩
      · rw [if_neg h1]
        have hu := hi.2 h1 (NetLinkController.ResizeInternal env s.nbdIndex_ size
          (NetLinkController.Init env s w).self (NetLinkController.Init env s w).w).2
        exact ⟨hu.1, by simp only [hu.2]; decide⟩
  | @Support s w env _ ih =>
    have hi := NetLinkController.Init_session env s w ih.1
    unfold NetLinkController.Support
    simp only []
    by_cases h1 : (NetLinkController.Init env s w).ret < 0
    · rw [if_pos h1]
      have := hi.1 h1
      exact ⟨this.1, this.2.elim (fun h => lt_of_eq_of_lt h ih.2) (fun h => h)⟩
    · rw [if_neg h1]
      have hu := hi.2 h1 (NetLinkController.Init env s w).w
      exact ⟨hu.1, by simp only [hu.2]; decide⟩
  | RunUntilQuit env _ ih => exact ih
  | CheckSetReadOnly env nbdfd flag _ ih => exact ih
  | ClearUp env _ ih => exact ih

/-! ## Lemmas on the content of the CONNECT message -/

theorem allSucceeded_append (env : Env) (e1 e2 : List Call) :
    ∀ t : List Call, allSucceeded env t (e1 ++ e2) =
      (allSucceeded env t e1 && allSucceeded env (t ++ e1) e2) := by
  induction e1 with
  | nil => intro t; simp [allSucceeded]
  | cons c e1 ih =>
    intro t
    show (!c.failed (env.sys t c) && allSucceeded env (t ++ [c]) (e1 ++ e2)) = _
    rw [ih]
    simp [allSucceeded, Bool.and_assoc]

/-- In a run of calls none of which failed, no single call failed. -/
theorem allSucceeded_split (env : Env) (l1 : List Call) (c : Call) (l2 : List Call) :
    ∀ t : List Call, allSucceeded env t (l1 ++ c :: l2) = true →
      c.failed (env.sys (t ++ l1) c) = false := by
  intro t h
  rw [allSucceeded_append] at h
  simp only [allSucceeded, Bool.and_eq_true, Bool.not_eq_true'] at h
  exact h.2.1

/-- Sequencing of two stretches of message construction that complete. -/
theorem Completes.seq_completes {env : Env} {t : List Call} {m1 : NlMsg} {e e1 e2 : List Call}
    {x : Except World Build} {f : Build → Except World Build}
    (hx : Tracks t m1 e1 x) (hc : Completes env t e1 x)
    (hf : ∀ b, b.msg = m1 → b.w.trace = t ++ e1 → Completes env (t ++ e1) e2 (f b))
    (he : e = e1 ++ e2) : Completes env t e (x >>= f) := by
  subst he
  intro b hb
  cases x with
  | error w1 => exact Except.noConfusion (show Except.error w1 = Except.ok b from hb)
  | ok a =>
    have h1 := hc a rfl
    have h2 := hf a hx.1 hx.2 b hb
    rw [allSucceeded_append, h1, h2]
    rfl

theorem genlmsg_put_completes (env : Env) (family : Int) (cmd : Cmd) (b : Build)
    (t : List Call) (ht : b.w.trace = t) :
    Completes env t [.genlmsg_put family cmd] (genlmsg_put env family cmd b) := by
  subst ht
  intro b2
  unfold genlmsg_put
  simp only []
  split_ifs with h <;> simp_all [allSucceeded, Call.failed]

theorem NLA_PUT_U32_completes (env : Env) (a : AttrType) (v : Nat) (b : Build)
    (t : List Call) (ht : b.w.trace = t) :
    Completes env t [.nla_put_u32 a v] (NLA_PUT_U32 env a v b) := by
  subst ht
  intro b2
  unfold NLA_PUT_U32
  simp only []
  split_ifs with h <;> simp_all [allSucceeded, Call.failed]

theorem NLA_PUT_U64_completes (env : Env) (a : AttrType) (v : Nat) (b : Build)
    (t : List Call) (ht : b.w.trace = t) :
    Completes env t [.nla_put_u64 a v] (NLA_PUT_U64 env a v b) := by
  subst ht
  intro b2
  unfold NLA_PUT_U64
  simp only []
  split_ifs with h <;> simp_all [allSucceeded, Call.failed]

theorem nla_nest_start_completes (env : Env) (a : AttrType) (diag : String) (b : Build)
    (t : List Call) (ht : b.w.trace = t) :
    Completes env t [.nla_nest_start a] (nla_nest_start env a diag b) := by
  subst ht
  intro b2
  unfold nla_nest_start
  simp only []
  split_ifs with h <;> simp_all [allSucceeded, Call.failed]

theorem nla_nest_end_completes (env : Env) (a a2 : AttrType) (b : Build) (t : List Call) :
    Completes env t [.nla_nest_end a, .nla_nest_end a2]
      (pure (nla_nest_end env a2 (nla_nest_end env a b))) := by
  intro b2 _
  simp [allSucceeded, Call.failed]

/-- The optional target-index step of `ConnectInternal`. -/
theorem connectIndex_tracks (env : Env) (config : NBDConfig) (b : Build)
    (t : List Call) (hd : Option (Int × Cmd)) (bd : List Item)
    (hm : b.msg = ⟨hd, bd⟩) (ht : b.w.trace = t) :
    Tracks t
      ⟨hd, bd ++ (if config.devpath ≠ "" then
        [Item.u32 .NBD_ATTR_INDEX (toU32 (env.parse_nbd_index config.devpath))] else [])⟩
      (if config.devpath ≠ "" then
        [Call.nla_put_u32 .NBD_ATTR_INDEX (toU32 (env.parse_nbd_index config.devpath))]
        else [])
      (if config.devpath ≠ "" then
        (if env.parse_nbd_index config.devpath < 0 then Except.error b.w
         else NLA_PUT_U32 env .NBD_ATTR_INDEX (toU32 (env.parse_nbd_index config.devpath)) b)
       else Except.ok b) := by
  by_cases hp : config.devpath = ""
  · subst ht; simp [hp, Tracks, hm]
  · by_cases hx : env.parse_nbd_index config.devpath < 0
    · subst ht; simp [hp, hx, Tracks]
    · simp only [ne_eq, hp, not_false_eq_true, if_true, hx, if_false]
      exact NLA_PUT_U32_tracks env _ _ b t hd bd hm ht

theorem connectIndex_completes (env : Env) (config : NBDConfig) (b : Build)
    (t : List Call) (ht : b.w.trace = t) :
    Completes env t
      (if config.devpath ≠ "" then
        [Call.nla_put_u32 .NBD_ATTR_INDEX (toU32 (env.parse_nbd_index config.devpath))]
        else [])
      (if config.devpath ≠ "" then
        (if env.parse_nbd_index config.devpath < 0 then Except.error b.w
         else NLA_PUT_U32 env .NBD_ATTR_INDEX (toU32 (env.parse_nbd_index config.devpath)) b)
       else Except.ok b) := by
  by_cases hp : config.devpath = ""
  · intro b2 _; simp [hp, allSucceeded]
  · by_cases hx : env.parse_nbd_index config.devpath < 0
    · intro b2 hb; simp [hp, hx] at hb
    · simp only [ne_eq, hp, not_false_eq_true, if_true, hx, if_false]
      exact NLA_PUT_U32_completes env _ _ b t ht

/-- The optional timeout step of `ConnectInternal`. -/
theorem connectTimeout_tracks (env : Env) (config : NBDConfig) (b : Build)
    (t : List Call) (hd : Option (Int × Cmd)) (bd : List Item)
    (hm : b.msg = ⟨hd, bd⟩) (ht : b.w.trace = t) :
    Tracks t
      ⟨hd, bd ++ (if 0 ≤ config.timeout then
        [Item.u64 .NBD_ATTR_TIMEOUT (toU64 config.timeout)] else [])⟩
      (if 0 ≤ config.timeout then
        [Call.nla_put_u64 .NBD_ATTR_TIMEOUT (toU64 config.timeout)] else [])
      (if config.timeout ≥ 0 then
        NLA_PUT_U64 env .NBD_ATTR_TIMEOUT (toU64 config.timeout) b
       else Except.ok b) := by
  by_cases hx : 0 ≤ config.timeout
  · simp only [ge_iff_le, hx, if_true]
    exact NLA_PUT_U64_tracks env _ _ b t hd bd hm ht
  · subst ht; simp [hx, Tracks, hm]

theorem connectTimeout_completes (env : Env) (config : NBDConfig) (b : Build)
    (t : List Call) (ht : b.w.trace = t) :
    Completes env t
      (if 0 ≤ config.timeout then
        [Call.nla_put_u64 .NBD_ATTR_TIMEOUT (toU64 config.timeout)] else [])
      (if config.timeout ≥ 0 then
        NLA_PUT_U64 env .NBD_ATTR_TIMEOUT (toU64 config.timeout) b
       else Except.ok b) := by
  by_cases hx : 0 ≤ config.timeout
  · simp only [ge_iff_le, hx, if_true]
    exact NLA_PUT_U64_completes env _ _ b t ht
  · intro b2 _; simp [hx, allSucceeded]

/-- When the construction of the CONNECT message completes, none of its
encoding calls failed. -/
theorem connectBuild_completes (env : Env) (config : NBDConfig) (sockfd : Int)
    (size blocksize flags : Nat) (self : NetLinkController) (w : World) :
    Completes env w.trace
      (Call.genlmsg_put self.nlId_ .NBD_CMD_CONNECT ::
        (connectBody env config sockfd size blocksize flags
          (if 0 ≤ config.timeout then [.u64 .NBD_ATTR_TIMEOUT (toU64 config.timeout)]
            else [])).map Item.toCall)
      (NetLinkController.ConnectInternal.build env config sockfd size blocksize flags
        self w) := by
  have key := Completes.seq_completes (e := _)
    (genlmsg_put_tracks env self.nlId_ .NBD_CMD_CONNECT ⟨⟨none, []⟩, w⟩ w.trace none []
      rfl rfl)
    (genlmsg_put_completes env self.nlId_ .NBD_CMD_CONNECT ⟨⟨none, []⟩, w⟩ w.trace rfl)
    (fun b hm ht => Completes.seq_completes (e := _) (connectIndex_tracks env config b _ _ _ hm ht)
      (connectIndex_completes env config b _ ht)
    (fun b hm ht => Completes.seq_completes (e := _) (connectTimeout_tracks env config b _ _ _ hm ht)
      (connectTimeout_completes env config b _ ht)
    (fun b hm ht => Completes.seq_completes (e := _)
      (NLA_PUT_U64_tracks env .NBD_ATTR_SIZE_BYTES size b _ _ _ hm ht)
      (NLA_PUT_U64_completes env .NBD_ATTR_SIZE_BYTES size b _ ht)
    (fun b hm ht => Completes.seq_completes (e := _)
      (NLA_PUT_U64_tracks env .NBD_ATTR_BLOCK_SIZE_BYTES blocksize b _ _ _ hm ht)
      (NLA_PUT_U64_completes env .NBD_ATTR_BLOCK_SIZE_BYTES blocksize b _ ht)
    (fun b hm ht => Completes.seq_completes (e := _)
      (NLA_PUT_U64_tracks env .NBD_ATTR_SERVER_FLAGS flags b _ _ _ hm ht)
      (NLA_PUT_U64_completes env .NBD_ATTR_SERVER_FLAGS flags b _ ht)
    (fun b hm ht => Completes.seq_completes (e := _)
      (nla_nest_start_tracks env .NBD_ATTR_SOCKETS
        "curve-nbd: Could not init sockets in netlink message." b _ _ _ hm ht)
      (nla_nest_start_completes env .NBD_ATTR_SOCKETS
        "curve-nbd: Could not init sockets in netlink message." b _ ht)
    (fun b hm ht => Completes.seq_completes (e := _)
      (nla_nest_start_tracks env .NBD_SOCK_ITEM
        "curve-nbd: Could not init sock in netlink message." b _ _ _ hm ht)
      (nla_nest_start_completes env .NBD_SOCK_ITEM
        "curve-nbd: Could not init sock in netlink message." b _ ht)
    (fun b hm ht => Completes.seq_completes (e := _)
      (NLA_PUT_U32_tracks env .NBD_SOCK_FD (toU32 sockfd) b _ _ _ hm ht)
      (NLA_PUT_U32_completes env .NBD_SOCK_FD (toU32 sockfd) b _ ht)
    (fun b _ _ => nla_nest_end_completes env .NBD_SOCK_ITEM .NBD_ATTR_SOCKETS b _)
    rfl) rfl) rfl) rfl) rfl) rfl) rfl) rfl) rfl
  unfold NetLinkController.ConnectInternal.build
  convert key using 1
  by_cases hp : config.devpath = "" <;> by_cases hx : 0 ≤ config.timeout <;>
    simp [connectBody, hp, hx, Item.toCall]

/-- The construction of the CONNECT message does not complete when a device
path is configured from which no index can be parsed. -/
theorem connectBuild_parse (env : Env) (config : NBDConfig) (sockfd : Int)
    (size blocksize flags : Nat) (self : NetLinkController) (w : World) (b : Build)
    (h : NetLinkController.ConnectInternal.build env config sockfd size blocksize flags
      self w = .ok b)
    (hp : config.devpath ≠ "") : 0 ≤ env.parse_nbd_index config.devpath := by
  by_contra hx
  have hx' : env.parse_nbd_index config.devpath < 0 := by omega
  unfold NetLinkController.ConnectInternal.build at h
  simp only [hp, hx', ne_eq, not_false_eq_true, if_true, bind, Except.bind] at h
  cases hg : genlmsg_put env self.nlId_ .NBD_CMD_CONNECT ⟨⟨none, []⟩, w⟩ with
  | error w1 => rw [hg] at h; exact Except.noConfusion h
  | ok b1 => rw [hg] at h; exact Except.noConfusion h

/-- When no encoding call fails and the configured path, if any, yields an
index, the construction of the CONNECT message completes. -/
theorem connectBuild_succeeds (env : Env) (config : NBDConfig) (sockfd : Int)
    (size blocksize flags : Nat) (self : NetLinkController) (w : World)
    (hok : ∀ h c, Call.failed c (env.sys h c) = false)
    (hparse : config.devpath = "" ∨ 0 ≤ env.parse_nbd_index config.devpath) :
    ∃ b, NetLinkController.ConnectInternal.build env config sockfd size blocksize flags
      self w = .ok b := by
  have hg : ∀ h f c, ¬ env.sys h (.genlmsg_put f c) = nullptr := by
    intro h f c; simpa [Call.failed] using hok h (.genlmsg_put f c)
  have h32 : ∀ h t v, ¬ env.sys h (.nla_put_u32 t v) < 0 := by
    intro h t v; simpa [Call.failed] using hok h (.nla_put_u32 t v)
  have h64 : ∀ h t v, ¬ env.sys h (.nla_put_u64 t v) < 0 := by
    intro h t v; simpa [Call.failed] using hok h (.nla_put_u64 t v)
  have hns : ∀ h t, ¬ env.sys h (.nla_nest_start t) = nullptr := by
    intro h t; simpa [Call.failed] using hok h (.nla_nest_start t)
  have hpx : config.devpath ≠ "" → ¬ env.parse_nbd_index config.devpath < 0 := by
    intro hp; rcases hparse with h | h
    · exact absurd h hp
    · omega
  unfold NetLinkController.ConnectInternal.build
  by_cases hp : config.devpath = "" <;> by_cases ht : 0 ≤ config.timeout
  · simp [genlmsg_put, NLA_PUT_U32, NLA_PUT_U64, nla_nest_start, bind, Except.bind, pure,
      Except.pure, hg, h32, h64, hns, hp, ht]
  · simp [genlmsg_put, NLA_PUT_U32, NLA_PUT_U64, nla_nest_start, bind, Except.bind, pure,
      Except.pure, hg, h32, h64, hns, hp, ht]
  · simp [genlmsg_put, NLA_PUT_U32, NLA_PUT_U64, nla_nest_start, bind, Except.bind, pure,
      Except.pure, hg, h32, h64, hns, hp, ht, hpx hp]
  · simp [genlmsg_put, NLA_PUT_U32, NLA_PUT_U64, nla_nest_start, bind, Except.bind, pure,
      Except.pure, hg, h32, h64, hns, hp, ht, hpx hp]

/-- What `ConnectInternal` does in terms of the outcome of `nlmsg_alloc` and
of the construction: no message, `-ENOMEM`; construction abandoned, the
message is freed, `-EIO`; construction complete, the message is sent. -/
theorem NetLinkController.ConnectInternal_outcome (env : Env) (config : NBDConfig)
    (sockfd : Int) (size blocksize flags : Nat) (self : NetLinkController) (w : World) :
    (env.sys (w.trace ++ [.nl_socket_modify_cb self.sock_ .netlink_connect_cb])
        .nlmsg_alloc = nullptr →
      (NetLinkController.ConnectInternal env config sockfd size blocksize flags
        self w).ret = -ENOMEM ∧
      (NetLinkController.ConnectInternal env config sockfd size blocksize flags
        self w).w.trace =
        w.trace ++ [.nl_socket_modify_cb self.sock_ .netlink_connect_cb, .nlmsg_alloc]) ∧
    (¬ env.sys (w.trace ++ [.nl_socket_modify_cb self.sock_ .netlink_connect_cb])
        .nlmsg_alloc = nullptr →
      (∀ w1, NetLinkController.ConnectInternal.build env config sockfd size blocksize flags
          self (World.call env (World.call env w
            (Call.nl_socket_modify_cb self.sock_ Callback.netlink_connect_cb)).2
            Call.nlmsg_alloc).2 = .error w1 →
        (NetLinkController.ConnectInternal env config sockfd size blocksize flags
          self w).ret = - EIO ∧
        (NetLinkController.ConnectInternal env config sockfd size blocksize flags
          self w).w.trace = w1.trace ++ [.nlmsg_free]) ∧
      (∀ b, NetLinkController.ConnectInternal.build env config sockfd size blocksize flags
          self (World.call env (World.call env w
            (Call.nl_socket_modify_cb self.sock_ Callback.netlink_connect_cb)).2
            Call.nlmsg_alloc).2 = .ok b →
        (NetLinkController.ConnectInternal env config sockfd size blocksize flags
          self w).w.trace = b.w.trace ++ [.nl_send_sync self.sock_ b.msg])) := by
  unfold NetLinkController.ConnectInternal
  simp only [World.call_fst, World.call_trace]
  refine ⟨fun h => ?_, fun h => ⟨fun w1 hb => ?_, fun b hb => ?_⟩⟩
  · rw [if_pos h]; exact ⟨rfl, by simp⟩
  · rw [if_neg h, hb]; exact ⟨rfl, rfl⟩
  · rw [if_neg h, hb]
    simp only []
    split_ifs <;> simp only [World.dout_trace, nl_send_sync_connect_trace]

/-- Sequencing of two stretches of message construction that go through. -/
theorem Progresses.seq_progresses {env : Env} {t : List Call} {m1 : NlMsg} {e e1 e2 : List Call}
    {x : Except World Build} {f : Build → Except World Build}
    (hx : Tracks t m1 e1 x) (hp : Progresses env t e1 x)
    (hf : ∀ b, b.msg = m1 → b.w.trace = t ++ e1 → Progresses env (t ++ e1) e2 (f b))
    (he : e = e1 ++ e2) : Progresses env t e (x >>= f) := by
  subst he
  intro hall
  rw [allSucceeded_append, Bool.and_eq_true] at hall
  obtain ⟨a, ha⟩ := hp hall.1
  subst ha
  exact hf a hx.1 hx.2 hall.2

theorem genlmsg_put_progresses (env : Env) (family : Int) (cmd : Cmd) (b : Build)
    (t : List Call) (ht : b.w.trace = t) :
    Progresses env t [.genlmsg_put family cmd] (genlmsg_put env family cmd b) := by
  subst ht
  intro hall
  have h : ¬ env.sys b.w.trace (.genlmsg_put family cmd) = nullptr := by
    simpa [allSucceeded, Call.failed] using hall
  unfold genlmsg_put
  simp only [World.call_fst, h, if_false]
  exact ⟨_, rfl⟩

theorem NLA_PUT_U32_progresses (env : Env) (a : AttrType) (v : Nat) (b : Build)
    (t : List Call) (ht : b.w.trace = t) :
    Progresses env t [.nla_put_u32 a v] (NLA_PUT_U32 env a v b) := by
  subst ht
  intro hall
  have h : ¬ env.sys b.w.trace (.nla_put_u32 a v) < 0 := by
    simpa [allSucceeded, Call.failed] using hall
  unfold NLA_PUT_U32
  simp only [World.call_fst, h, if_false]
  exact ⟨_, rfl⟩

theorem NLA_PUT_U64_progresses (env : Env) (a : AttrType) (v : Nat) (b : Build)
    (t : List Call) (ht : b.w.trace = t) :
    Progresses env t [.nla_put_u64 a v] (NLA_PUT_U64 env a v b) := by
  subst ht
  intro hall
  have h : ¬ env.sys b.w.trace (.nla_put_u64 a v) < 0 := by
    simpa [allSucceeded, Call.failed] using hall
  unfold NLA_PUT_U64
  simp only [World.call_fst, h, if_false]
  exact ⟨_, rfl⟩

theorem nla_nest_start_progresses (env : Env) (a : AttrType) (diag : String) (b : Build)
    (t : List Call) (ht : b.w.trace = t) :
    Progresses env t [.nla_nest_start a] (nla_nest_start env a diag b) := by
  subst ht
  intro hall
  have h : ¬ env.sys b.w.trace (.nla_nest_start a) = nullptr := by
    simpa [allSucceeded, Call.failed] using hall
  unfold nla_nest_start
  simp only [World.call_fst, h, if_false]
  exact ⟨_, rfl⟩

theorem nla_nest_end_progresses (env : Env) (a a2 : AttrType) (b : Build) (t : List Call) :
    Progresses env t [.nla_nest_end a, .nla_nest_end a2]
      (pure (nla_nest_end env a2 (nla_nest_end env a b))) :=
  fun _ => ⟨_, rfl⟩

theorem connectIndex_progresses (env : Env) (config : NBDConfig) (b : Build)
    (t : List Call) (ht : b.w.trace = t)
    (hparse : config.devpath = "" ∨ 0 ≤ env.parse_nbd_index config.devpath) :
    Progresses env t
      (if config.devpath ≠ "" then
        [Call.nla_put_u32 .NBD_ATTR_INDEX (toU32 (env.parse_nbd_index config.devpath))]
        else [])
      (if config.devpath ≠ "" then
        (if env.parse_nbd_index config.devpath < 0 then Except.error b.w
         else NLA_PUT_U32 env .NBD_ATTR_INDEX (toU32 (env.parse_nbd_index config.devpath)) b)
       else Except.ok b) := by
  by_cases hp : config.devpath = ""
  · intro _; exact ⟨b, by simp [hp]⟩
  · have hx : ¬ env.parse_nbd_index config.devpath < 0 := by
      rcases hparse with h | h
      · exact absurd h hp
      · omega
    simp only [ne_eq, hp, not_false_eq_true, if_true, hx, if_false]
    exact NLA_PUT_U32_progresses env _ _ b t ht

theorem connectTimeout_progresses (env : Env) (config : NBDConfig) (b : Build)
    (t : List Call) (ht : b.w.trace = t) :
    Progresses env t
      (if 0 ≤ config.timeout then
        [Call.nla_put_u64 .NBD_ATTR_TIMEOUT (toU64 config.timeout)] else [])
      (if config.timeout ≥ 0 then
        NLA_PUT_U64 env .NBD_ATTR_TIMEOUT (toU64 config.timeout) b
       else Except.ok b) := by
  by_cases hx : 0 ≤ config.timeout
  · simp only [ge_iff_le, hx, if_true]
    exact NLA_PUT_U64_progresses env _ _ b t ht
  · intro _; exact ⟨b, by simp [hx]⟩

/-- When none of its encoding calls fails and the configured path, if any,
yields an index, the construction of the CONNECT message completes. -/
theorem connectBuild_progresses (env : Env) (config : NBDConfig) (sockfd : Int)
    (size blocksize flags : Nat) (self : NetLinkController) (w : World)
    (hparse : config.devpath = "" ∨ 0 ≤ env.parse_nbd_index config.devpath) :
    Progresses env w.trace
      (Call.genlmsg_put self.nlId_ .NBD_CMD_CONNECT ::
        (connectBody env config sockfd size blocksize flags
          (if 0 ≤ config.timeout then [.u64 .NBD_ATTR_TIMEOUT (toU64 config.timeout)]
            else [])).map Item.toCall)
      (NetLinkController.ConnectInternal.build env config sockfd size blocksize flags
        self w) := by
  have key := Progresses.seq_progresses (e := _)
    (genlmsg_put_tracks env self.nlId_ .NBD_CMD_CONNECT ⟨⟨none, []⟩, w⟩ w.trace none []
      rfl rfl)
    (genlmsg_put_progresses env self.nlId_ .NBD_CMD_CONNECT ⟨⟨none, []⟩, w⟩ w.trace rfl)
    (fun b hm ht => Progresses.seq_progresses (e := _) (connectIndex_tracks env config b _ _ _ hm ht)
      (connectIndex_progresses env config b _ ht hparse)
    (fun b hm ht => Progresses.seq_progresses (e := _) (connectTimeout_tracks env config b _ _ _ hm ht)
      (connectTimeout_progresses env config b _ ht)
    (fun b hm ht => Progresses.seq_progresses (e := _)
      (NLA_PUT_U64_tracks env .NBD_ATTR_SIZE_BYTES size b _ _ _ hm ht)
      (NLA_PUT_U64_progresses env .NBD_ATTR_SIZE_BYTES size b _ ht)
    (fun b hm ht => Progresses.seq_progresses (e := _)
      (NLA_PUT_U64_tracks env .NBD_ATTR_BLOCK_SIZE_BYTES blocksize b _ _ _ hm ht)
      (NLA_PUT_U64_progresses env .NBD_ATTR_BLOCK_SIZE_BYTES blocksize b _ ht)
    (fun b hm ht => Progresses.seq_progresses (e := _)
      (NLA_PUT_U64_tracks env .NBD_ATTR_SERVER_FLAGS flags b _ _ _ hm ht)
      (NLA_PUT_U64_progresses env .NBD_ATTR_SERVER_FLAGS flags b _ ht)
    (fun b hm ht => Progresses.seq_progresses (e := _)
      (nla_nest_start_tracks env .NBD_ATTR_SOCKETS
        "curve-nbd: Could not init sockets in netlink message." b _ _ _ hm ht)
      (nla_nest_start_progresses env .NBD_ATTR_SOCKETS
        "curve-nbd: Could not init sockets in netlink message." b _ ht)
    (fun b hm ht => Progresses.seq_progresses (e := _)
      (nla_nest_start_tracks env .NBD_SOCK_ITEM
        "curve-nbd: Could not init sock in netlink message." b _ _ _ hm ht)
      (nla_nest_start_progresses env .NBD_SOCK_ITEM
        "curve-nbd: Could not init sock in netlink message." b _ ht)
    (fun b hm ht => Progresses.seq_progresses (e := _)
      (NLA_PUT_U32_tracks env .NBD_SOCK_FD (toU32 sockfd) b _ _ _ hm ht)
      (NLA_PUT_U32_progresses env .NBD_SOCK_FD (toU32 sockfd) b _ ht)
    (fun b _ _ => nla_nest_end_progresses env .NBD_SOCK_ITEM .NBD_ATTR_SOCKETS b _)
    rfl) rfl) rfl) rfl) rfl) rfl) rfl) rfl) rfl
  unfold NetLinkController.ConnectInternal.build
  convert key using 1
  by_cases hp : config.devpath = "" <;> by_cases hx : 0 ≤ config.timeout <;>
    simp [connectBody, hp, hx, Item.toCall]

/-- When `nlmsg_alloc` and the encoding calls of the CONNECT message do not
fail and the configured path, if any, yields an index, `ConnectInternal`
issues exactly these calls and then sends the complete message. -/
theorem NetLinkController.ConnectInternal_sends (env : Env) (config : NBDConfig)
    (sockfd : Int) (size blocksize flags : Nat) (self : NetLinkController) (w : World)
    (body : List Item)
    (hbody : body = connectBody env config sockfd size blocksize flags
      (if 0 ≤ config.timeout then [.u64 .NBD_ATTR_TIMEOUT (toU64 config.timeout)] else []))
    (hall : allSucceeded env w.trace
      ([.nl_socket_modify_cb self.sock_ .netlink_connect_cb, .nlmsg_alloc,
        .genlmsg_put self.nlId_ .NBD_CMD_CONNECT] ++ body.map Item.toCall) = true)
    (hparse : config.devpath = "" ∨ 0 ≤ env.parse_nbd_index config.devpath) :
    (NetLinkController.ConnectInternal env config sockfd size blocksize flags
      self w).w.trace =
    w.trace ++ ([.nl_socket_modify_cb self.sock_ .netlink_connect_cb, .nlmsg_alloc,
        .genlmsg_put self.nlId_ .NBD_CMD_CONNECT] ++ body.map Item.toCall ++
      [.nl_send_sync self.sock_ ⟨some (self.nlId_, .NBD_CMD_CONNECT), body⟩]) := by
  have hout := NetLinkController.ConnectInternal_outcome env config sockfd size blocksize
    flags self w
  have htr := connectBuild_tracks env config sockfd size blocksize flags self
    (World.call env (World.call env w
      (Call.nl_socket_modify_cb self.sock_ Callback.netlink_connect_cb)).2 Call.nlmsg_alloc).2
  have hpr := connectBuild_progresses env config sockfd size blocksize flags self
    (World.call env (World.call env w
      (Call.nl_socket_modify_cb self.sock_ Callback.netlink_connect_cb)).2 Call.nlmsg_alloc).2
    hparse
  rw [← hbody] at htr hpr
  have hsplit : [Call.nl_socket_modify_cb self.sock_ .netlink_connect_cb, .nlmsg_alloc,
      .genlmsg_put self.nlId_ .NBD_CMD_CONNECT] ++ body.map Item.toCall =
      [.nl_socket_modify_cb self.sock_ .netlink_connect_cb, .nlmsg_alloc] ++
      (Call.genlmsg_put self.nlId_ .NBD_CMD_CONNECT :: body.map Item.toCall) := by
    simp
  rw [hsplit, allSucceeded_append, Bool.and_eq_true] at hall
  obtain ⟨h1, h2⟩ := hall
  have ha : ¬ env.sys (w.trace ++ [.nl_socket_modify_cb self.sock_ .netlink_connect_cb])
      .nlmsg_alloc = nullptr := by
    simpa [allSucceeded, Call.failed] using h1
  have h2' : allSucceeded env (World.call env (World.call env w
      (Call.nl_socket_modify_cb self.sock_ Callback.netlink_connect_cb)).2
      Call.nlmsg_alloc).2.trace
      (Call.genlmsg_put self.nlId_ .NBD_CMD_CONNECT :: body.map Item.toCall) = true := by
    rw [← h2]; congr 1; simp
  obtain ⟨b, hb⟩ := hpr h2'
  rw [hb] at htr
  obtain ⟨hm, ht⟩ := htr
  rw [((hout.2 ha).2 b hb), ht, hm]
  simp

/-- The encoding calls of a message contain no `nl_send_sync`. -/
theorem encoding_has_no_send (sk : Int) (m : NlMsg) (f : Int) (c : Cmd) (body : List Item) :
    Call.nl_send_sync sk m ∉ Call.genlmsg_put f c :: body.map Item.toCall := by
  intro hmem
  simp only [List.mem_cons, reduceCtorEq, List.mem_map, false_or] at hmem
  obtain ⟨it, -, hit⟩ := hmem
  cases it <;> simp [Item.toCall] at hit

/-- The complete description of a run of `ConnectInternal`, with `body` the
attribute stream of the complete message and `l` the calls the run adds to
the trace.  Either nothing is sent and the result is negative, or the
construction completed, no call failed, the index could be parsed, and the
run ends with the send of the complete message. -/
theorem NetLinkController.ConnectInternal_run (env : Env) (config : NBDConfig)
    (sockfd : Int) (size blocksize flags : Nat) (self : NetLinkController) (w : World)
    (body : List Item)
    (hbody : body = connectBody env config sockfd size blocksize flags
      (if 0 ≤ config.timeout then [.u64 .NBD_ATTR_TIMEOUT (toU64 config.timeout)] else [])) :
    ∃ l, (NetLinkController.ConnectInternal env config sockfd size blocksize flags
        self w).w.trace = w.trace ++ l ∧
      (((NetLinkController.ConnectInternal env config sockfd size blocksize flags
          self w).ret < 0 ∧
        (∀ sk m, Call.nl_send_sync sk m ∉ l) ∧
        ¬ ((∀ h c, Call.failed c (env.sys h c) = false) ∧
          (config.devpath = "" ∨ 0 ≤ env.parse_nbd_index config.devpath))) ∨
       (l = [.nl_socket_modify_cb self.sock_ .netlink_connect_cb, .nlmsg_alloc,
            .genlmsg_put self.nlId_ .NBD_CMD_CONNECT] ++ body.map Item.toCall ++
            [.nl_send_sync self.sock_ ⟨some (self.nlId_, .NBD_CMD_CONNECT), body⟩] ∧
        allSucceeded env w.trace l = true ∧
        (config.devpath ≠ "" → 0 ≤ env.parse_nbd_index config.devpath))) := by
  have hout := NetLinkController.ConnectInternal_outcome env config sockfd size blocksize
    flags self w
  have htr := connectBuild_tracks env config sockfd size blocksize flags self
    (World.call env (World.call env w
      (Call.nl_socket_modify_cb self.sock_ Callback.netlink_connect_cb)).2 Call.nlmsg_alloc).2
  have hco := connectBuild_completes env config sockfd size blocksize flags self
    (World.call env (World.call env w
      (Call.nl_socket_modify_cb self.sock_ Callback.netlink_connect_cb)).2 Call.nlmsg_alloc).2
  rw [← hbody] at htr hco
  by_cases ha : env.sys (w.trace ++ [.nl_socket_modify_cb self.sock_ .netlink_connect_cb])
      .nlmsg_alloc = nullptr
  · obtain ⟨hret, htrace⟩ := hout.1 ha
    refine ⟨_, htrace, Or.inl ⟨by rw [hret]; decide, by simp, ?_⟩⟩
    rintro ⟨hok, -⟩
    have := hok (w.trace ++ [.nl_socket_modify_cb self.sock_ .netlink_connect_cb])
      .nlmsg_alloc
    simp [Call.failed, ha] at this
  · obtain ⟨herr, hsent⟩ := hout.2 ha
    cases hb : NetLinkController.ConnectInternal.build env config sockfd size blocksize
        flags self (World.call env (World.call env w
          (Call.nl_socket_modify_cb self.sock_ Callback.netlink_connect_cb)).2
          Call.nlmsg_alloc).2 with
    | error w1 =>
      obtain ⟨hret, htrace⟩ := herr w1 hb
      rw [hb] at htr
      obtain ⟨l1, hl1, hpre⟩ := trace_between htr.1 htr.2
      refine ⟨[.nl_socket_modify_cb self.sock_ .netlink_connect_cb, .nlmsg_alloc] ++ l1 ++
        [.nlmsg_free], ?_, Or.inl ⟨by rw [hret]; decide, ?_, ?_⟩⟩
      · rw [htrace, hl1]; simp
      · intro sk m hmem
        simp only [List.cons_append, List.nil_append, List.mem_cons, List.mem_append,
          List.mem_singleton, reduceCtorEq, false_or, or_false, List.not_mem_nil] at hmem
        exact encoding_has_no_send sk m _ _ _ (hpre.subset hmem)
      · rintro ⟨hok, hparse⟩
        obtain ⟨b, hb2⟩ := connectBuild_succeeds env config sockfd size blocksize flags self
          (World.call env (World.call env w
            (Call.nl_socket_modify_cb self.sock_ Callback.netlink_connect_cb)).2
            Call.nlmsg_alloc).2 hok hparse
        rw [hb] at hb2
        exact Except.noConfusion hb2
    | ok b =>
      have htrace := hsent b hb
      have hall := hco b hb
      rw [hb] at htr
      obtain ⟨hm, ht⟩ := htr
      refine ⟨_, ?_, Or.inr ⟨rfl, ?_, ?_⟩⟩
      · rw [htrace, ht, hm]; simp
      · simp only [World.call_trace] at hall
        have h1 : allSucceeded env w.trace
            [.nl_socket_modify_cb self.sock_ .netlink_connect_cb, .nlmsg_alloc] = true := by
          simp [allSucceeded, Call.failed, ha]
        have h3 : ∀ t, allSucceeded env t
            [.nl_send_sync self.sock_ ⟨some (self.nlId_, .NBD_CMD_CONNECT), body⟩] = true := by
          intro t; simp [allSucceeded, Call.failed]
        have hsplit : [Call.nl_socket_modify_cb self.sock_ .netlink_connect_cb, .nlmsg_alloc,
            .genlmsg_put self.nlId_ .NBD_CMD_CONNECT] ++ body.map Item.toCall ++
            [.nl_send_sync self.sock_ ⟨some (self.nlId_, .NBD_CMD_CONNECT), body⟩] =
            [.nl_socket_modify_cb self.sock_ .netlink_connect_cb, .nlmsg_alloc] ++
            ((Call.genlmsg_put self.nlId_ .NBD_CMD_CONNECT :: body.map Item.toCall) ++
            [.nl_send_sync self.sock_ ⟨some (self.nlId_, .NBD_CMD_CONNECT), body⟩]) := by
          simp
        rw [hsplit, allSucceeded_append, allSucceeded_append, h1, h3]
        simp only [Bool.true_and, Bool.and_true]
        rw [← hall]
        congr 1
        simp
      · exact connectBuild_parse env config sockfd size blocksize flags self _ b hb

/-! ## Properties -/

/-- C1: `SetUp` called on a newly constructed controller, in either strategy
and whatever the system calls answer, either returns 0 and leaves the handle
with a non-negative descriptor and a non-negative index, or returns a
negative value and leaves the handle at descriptor -1 and index -1. -/
theorem C1_SetUp_all_or_nothing (env : Env) (config : NBDConfig) (sockfd : Int)
    (size blocksize flags : Nat) (w : World) :
    (let r := IOController.SetUp env config sockfd size blocksize flags NBDController.new w
     (r.ret = 0 ∧ 0 ≤ r.self.nbdFd_ ∧ 0 ≤ r.self.nbdIndex_) ∨
       (r.ret < 0 ∧ r.self.nbdFd_ = -1 ∧ r.self.nbdIndex_ = -1)) ∧
    (let r := NetLinkController.SetUp env config sockfd size blocksize flags
        NetLinkController.new w
     (r.ret = 0 ∧ 0 ≤ r.self.nbdFd_ ∧ 0 ≤ r.self.nbdIndex_) ∨
       (r.ret < 0 ∧ r.self.nbdFd_ = -1 ∧ r.self.nbdIndex_ = -1)) := by
  constructor
  · have h := IOController.SetUp_legacy_cases env config sockfd size blocksize flags
      NBDController.new w
    simp only [] at h ⊢
    rcases h with h | ⟨h, h' | h'⟩
    · exact Or.inl h
    · right; rw [h']; exact ⟨h, rfl, rfl⟩
    · right; rw [h']; exact ⟨h, rfl, rfl⟩
  · have h := NetLinkController.SetUp_netlink_cases env config sockfd size blocksize flags
      NetLinkController.new w
    simp only [] at h ⊢
    rcases h with h | ⟨h, h'⟩
    · exact Or.inl h
    · right; rw [h']; exact ⟨h, rfl, rfl⟩

/-- C2 (as stated, refuted): the device node opens, the `NBD_DISCONNECT`
instruction fails with -1, and `IOController::DisconnectByPath` returns that
-1, not the 0 it returns when the instruction succeeds. -/
theorem C2_disconnect_failure_is_returned :
    0 ≤ envDisconnectFails.sys World.init.trace (.open "/dev/nbd0") ∧
    envDisconnectFails.sys (World.init.trace ++ [.open "/dev/nbd0"])
      (.ioctl 3 .NBD_DISCONNECT 0) < 0 ∧
    (IOController.DisconnectByPath envDisconnectFails "/dev/nbd0" NBDController.new
      World.init).ret = -1 ∧
    (IOController.DisconnectByPath envOk "/dev/nbd0" NBDController.new World.init).ret = 0 := by
  decide

/-- C2 (amended): when the device node opens, `IOController::DisconnectByPath`
issues `NBD_DISCONNECT` on it, closes it, and returns the result of the
instruction, whatever it is; a negative result is logged as well, so the call
returns 0 only when the instruction returns 0.  The handle is untouched. -/
theorem C2_DisconnectByPath_returns_instruction_result (env : Env) (devpath : String)
    (self : NBDController) (w : World)
    (hopen : 0 ≤ env.sys w.trace (.open devpath)) :
    let fd := env.sys w.trace (.open devpath)
    let res := env.sys (w.trace ++ [.open devpath]) (.ioctl fd .NBD_DISCONNECT 0)
    let r := IOController.DisconnectByPath env devpath self w
    r.ret = res ∧
    r.self = self ∧
    r.w.trace = w.trace ++ [.open devpath, .ioctl fd .NBD_DISCONNECT 0, .close fd] ∧
    r.w.log = (if res < 0 then w.log ++ ["curve-nbd: the device is not used. "] else w.log) ∧
    (res < 0 → r.ret < 0) := by
  have h : ¬ env.sys w.trace (.open devpath) < 0 := by omega
  unfold IOController.DisconnectByPath
  simp only [World.call_fst, h, if_false, World.call_trace]
  split_ifs <;> simp_all

/-- Witness for C2 (amended), in a kernel where the instruction fails. -/
theorem C2_DisconnectByPath_returns_instruction_result_witness :
    (IOController.DisconnectByPath envDisconnectFails "/dev/nbd0" NBDController.new
      World.init).ret = -1 ∧
    (IOController.DisconnectByPath envDisconnectFails "/dev/nbd0" NBDController.new
      World.init).w.trace =
      [.open "/dev/nbd0", .ioctl 3 .NBD_DISCONNECT 0, .close 3] :=
  ⟨(C2_DisconnectByPath_returns_instruction_result envDisconnectFails "/dev/nbd0"
      NBDController.new World.init (by decide)).1,
   (C2_DisconnectByPath_returns_instruction_result envDisconnectFails "/dev/nbd0"
      NBDController.new World.init (by decide)).2.2.1⟩

/-- C3 (failing input): the slot is claimed, `NBD_SET_FLAGS` returns -1, and
Legacy `SetUp` goes on to the read-only and timeout instructions and to the
validation, returns 0 and keeps the handle; it issues neither `NBD_CLEAR_SOCK`
nor `close`. -/
theorem C3_set_flags_failure_is_ignored :
    envSetFlagsFails.sys
      [.open "/dev/nbd0", .ioctl 3 .NBD_SET_SOCK 7, .ioctl 3 .NBD_SET_BLKSIZE 4096,
        .ioctl 3 .NBD_SET_SIZE 10737418240] (.ioctl 3 .NBD_SET_FLAGS 0) = -1 ∧
    (IOController.SetUp envSetFlagsFails ⟨"/dev/nbd0", 30⟩ 7 10737418240 4096 0
      NBDController.new World.init).ret = 0 ∧
    (IOController.SetUp envSetFlagsFails ⟨"/dev/nbd0", 30⟩ 7 10737418240 4096 0
      NBDController.new World.init).self = { nbdFd_ := 3, nbdIndex_ := 0 } ∧
    (IOController.SetUp envSetFlagsFails ⟨"/dev/nbd0", 30⟩ 7 10737418240 4096 0
      NBDController.new World.init).w.trace =
      [.open "/dev/nbd0", .ioctl 3 .NBD_SET_SOCK 7, .ioctl 3 .NBD_SET_BLKSIZE 4096,
        .ioctl 3 .NBD_SET_SIZE 10737418240, .ioctl 3 .NBD_SET_FLAGS 0,
        .ioctl 3 .BLKROSET 0, .ioctl 3 .NBD_SET_TIMEOUT 30,
        .check_device_size 0 10737418240, .check_block_size 0 4096] := by
  decide

/-- C5: `Resize` on a controller whose handle is unattached (descriptor -1,
index -1) returns a negative value for every size, in both strategies; it
issues no call at all, so no resize instruction, no messaging session and no
message, and it leaves the object unchanged. -/
theorem C5_Resize_before_SetUp_fails (env : Env) (size : Nat) (w : World)
    (io : NBDController) (nl : NetLinkController)
    (hio : io.nbdFd_ = -1 ∧ io.nbdIndex_ = -1)
    (hnl : nl.nbdFd_ = -1 ∧ nl.nbdIndex_ = -1) :
    ((IOController.Resize env size io w).ret < 0 ∧
      (IOController.Resize env size io w).self = io ∧
      (IOController.Resize env size io w).w.trace = w.trace) ∧
    ((NetLinkController.Resize env size nl w).ret < 0 ∧
      (NetLinkController.Resize env size nl w).self = nl ∧
      (NetLinkController.Resize env size nl w).w.trace = w.trace) := by
  unfold IOController.Resize NetLinkController.Resize
  simp [hio.1, hnl.2]

/-- Witness for C5: the newly constructed controllers. -/
theorem C5_Resize_before_SetUp_fails_witness :
    (IOController.Resize envOk 4096 NBDController.new World.init).ret < 0 ∧
    (NetLinkController.Resize envOk 4096 NetLinkController.new World.init).ret < 0 :=
  ⟨(C5_Resize_before_SetUp_fails envOk 4096 World.init NBDController.new
      NetLinkController.new ⟨rfl, rfl⟩ ⟨rfl, rfl⟩).1.1,
   (C5_Resize_before_SetUp_fails envOk 4096 World.init NBDController.new
      NetLinkController.new ⟨rfl, rfl⟩ ⟨rfl, rfl⟩).2.1⟩

/-- C4: Legacy `SetUp` with an empty device path runs `MapOnUnusedNbdDevice`,
which tries slots 0, 1, 2, ... in increasing order, each once, and stops at
the first claimable slot.  With `n` the platform maximum: it returns 0 exactly
when some slot below `n` is claimable; then, for the least such slot `i`, the
path written to the configuration is `/dev/nbd<i>`, the handle index is the
index parsed from that path, and the calls issued are those of the attempts on
slots `0 .. i` and no others.  When no slot below `n` is claimable (also when
`n ≤ 0`) it returns a negative value after the attempts on all slots below `n`
and the configured path is unchanged. -/
theorem C4_MapOnUnusedNbdDevice_first_fit (env : Env) (config : NBDConfig) (sockfd : Int)
    (size blocksize flags : Nat) (self : NBDController) (w : World)
    (hpath : config.devpath = "") :
    let n := env.get_nbd_max_count
    let r := IOController.MapOnUnusedNbdDevice env sockfd config.devpath self w
    let attempt := fun i : Nat =>
      IOController.MapOnNbdDeviceByDevPath env sockfd (devName i) false self
        (scanWorld env sockfd self w i)
    (r.ret = 0 ↔ ∃ i : Nat, (i : Int) < n ∧ claimable env sockfd self w i) ∧
    (∀ i : Nat, (i : Int) < n → claimable env sockfd self w i →
      (∀ j : Nat, j < i → ¬ claimable env sockfd self w j) →
      r.ret = 0 ∧ r.devpath = devName i ∧
      r.self.nbdIndex_ = env.parse_nbd_index (devName i) ∧ 0 ≤ r.self.nbdFd_ ∧
      r.self = (attempt i).self ∧ r.w = (attempt i).w) ∧
    ((∀ i : Nat, (i : Int) < n → ¬ claimable env sockfd self w i) →
      r.ret < 0 ∧ r.devpath = config.devpath ∧ r.self = self ∧
      r.w.trace = (scanWorld env sockfd self w n.toNat).trace) ∧
    (IOController.SetUp env config sockfd size blocksize flags self w).config.devpath =
      r.devpath := by
  have hspec := IOController.MapOnUnusedNbdDevice.loop_spec env sockfd config.devpath self w
    env.get_nbd_max_count.toNat 0
  simp only [scanWorld, Nat.zero_add, Nat.zero_le, forall_true_left] at hspec
  obtain ⟨hnone, hsome⟩ := hspec
  have hlt : ∀ i : Nat, (i : Int) < env.get_nbd_max_count ↔ i < env.get_nbd_max_count.toNat := by
    intro i; omega
  have hleast : ∀ i : Nat, (i : Int) < env.get_nbd_max_count → claimable env sockfd self w i →
      (∀ j : Nat, j < i → ¬ claimable env sockfd self w j) →
      (IOController.MapOnUnusedNbdDevice env sockfd config.devpath self w).ret = 0 ∧
      (IOController.MapOnUnusedNbdDevice env sockfd config.devpath self w).devpath = devName i ∧
      (IOController.MapOnUnusedNbdDevice env sockfd config.devpath self w).self.nbdIndex_ =
        env.parse_nbd_index (devName i) ∧
      0 ≤ (IOController.MapOnUnusedNbdDevice env sockfd config.devpath self w).self.nbdFd_ ∧
      (IOController.MapOnUnusedNbdDevice env sockfd config.devpath self w).self =
        (IOController.MapOnNbdDeviceByDevPath env sockfd (devName i) false self
          (scanWorld env sockfd self w i)).self ∧
      (IOController.MapOnUnusedNbdDevice env sockfd config.devpath self w).w =
        (IOController.MapOnNbdDeviceByDevPath env sockfd (devName i) false self
          (scanWorld env sockfd self w i)).w := by
    intro i hi hc hl
    have h := hsome i ((hlt i).1 hi) hc hl
    have hidx := (IOController.MapOnNbdDeviceByDevPath_index env sockfd (devName i) false
      self (scanWorld env sockfd self w i)).1 hc
    unfold IOController.MapOnUnusedNbdDevice
    refine ⟨h.1, h.2.1, ?_, ?_, h.2.2.1, h.2.2.2⟩
    · rw [h.2.2.1]; exact hidx.2.1
    · rw [h.2.2.1]; exact hidx.2.2
  refine ⟨⟨fun h0 => ?_, fun hex => ?_⟩, hleast, fun hno => ?_, ?_⟩
  · by_contra hne
    have := hnone (fun i hi hc => hne ⟨i, (hlt i).2 hi, hc⟩)
    unfold IOController.MapOnUnusedNbdDevice at h0
    omega
  · classical
    have hex' : ∃ i : Nat, (i : Int) < env.get_nbd_max_count ∧ claimable env sockfd self w i :=
      hex
    have hmin := Nat.find_spec hex'
    exact (hleast (Nat.find hex') hmin.1 hmin.2 (fun j hj hc =>
      Nat.find_min hex' hj ⟨by omega, hc⟩)).1
  · have := hnone (fun i hi => hno i ((hlt i).2 hi))
    unfold IOController.MapOnUnusedNbdDevice
    refine ⟨by omega, this.2.1, this.2.2.1, this.2.2.2⟩
  · unfold IOController.SetUp
    simp only [hpath, if_true]
    split_ifs <;> rfl

/-- Witness for C4: four slots, slots 0 and 1 busy; slot 2 is claimed, after
one attempt on each of the slots 0, 1 and 2. -/
theorem C4_MapOnUnusedNbdDevice_first_fit_witness :
    (IOController.MapOnUnusedNbdDevice envBusy01 7 "" NBDController.new World.init).ret = 0 ∧
    (IOController.MapOnUnusedNbdDevice envBusy01 7 "" NBDController.new World.init).devpath =
      "/dev/nbd2" ∧
    (IOController.MapOnUnusedNbdDevice envBusy01 7 "" NBDController.new World.init).w.trace =
      [.open "/dev/nbd0", .ioctl 3 .NBD_SET_SOCK 7, .close 3,
       .open "/dev/nbd1", .ioctl 4 .NBD_SET_SOCK 7, .close 4,
       .open "/dev/nbd2", .ioctl 5 .NBD_SET_SOCK 7] := by
  have h := (C4_MapOnUnusedNbdDevice_first_fit envBusy01 ⟨"", 30⟩ 7 10737418240 4096 0
    NBDController.new World.init rfl).2.1 2 (by decide) (by decide) (by decide)
  refine ⟨h.1, h.2.1, ?_⟩
  rw [h.2.2.2.2.2]
  decide

/-- C6: with `a`, `c`, `g` the answers to `nl_socket_alloc`, `genl_connect`
and `genl_ctrl_resolve`, `Init` on a new controller fails exactly when the
channel cannot be allocated or connected or the family cannot be resolved;
`Support()` returns true exactly when `Init` succeeds; and when `Init` fails,
`Support()` is false and `SetUp` returns a negative value, leaves the
configuration and the handle (descriptor -1, index -1) unchanged, and issues
only the session calls `Init` made: no message is built or sent and no device
node is opened. -/
theorem C6_unsupported_family (env : Env) (config : NBDConfig) (sockfd : Int)
    (size blocksize flags : Nat) (w : World) :
    let a := env.sys w.trace .nl_socket_alloc
    let c := env.sys (w.trace ++ [.nl_socket_alloc]) (.genl_connect a)
    let g := env.sys (w.trace ++ [.nl_socket_alloc, .genl_connect a])
      (.genl_ctrl_resolve a "nbd")
    let i := NetLinkController.Init env NetLinkController.new w
    let s := NetLinkController.Support env NetLinkController.new w
    let r := NetLinkController.SetUp env config sockfd size blocksize flags
      NetLinkController.new w
    (i.ret < 0 ↔ (a = nullptr ∨ c < 0 ∨ g < 0)) ∧
    (s.1 = true ↔ i.ret = 0) ∧
    (i.ret < 0 →
      s.1 = false ∧ r.ret < 0 ∧ r.config = config ∧
      r.self.nbdFd_ = -1 ∧ r.self.nbdIndex_ = -1 ∧
      r.w.trace = i.w.trace ∧
      ∃ l, r.w.trace = w.trace ++ l ∧ ∀ x ∈ l, x.isSession = true) := by
  simp only []
  by_cases ha : env.sys w.trace .nl_socket_alloc = 0
  · simp [NetLinkController.SetUp, NetLinkController.Support, NetLinkController.Init,
      NetLinkController.new, NBDController.new, nullptr, ha, Call.isSession]
  · by_cases hc : env.sys (w.trace ++ [.nl_socket_alloc])
        (.genl_connect (env.sys w.trace .nl_socket_alloc)) < 0
    · simp [NetLinkController.SetUp, NetLinkController.Support, NetLinkController.Init,
        NetLinkController.new, NBDController.new, nullptr, ha, hc, Call.isSession]
    · by_cases hg : env.sys
          (w.trace ++ [.nl_socket_alloc, .genl_connect (env.sys w.trace .nl_socket_alloc)])
          (.genl_ctrl_resolve (env.sys w.trace .nl_socket_alloc) "nbd") < 0
      · simp [NetLinkController.SetUp, NetLinkController.Support, NetLinkController.Init,
          NetLinkController.new, NBDController.new, nullptr, ha, hc, hg, Call.isSession]
      · simp [NetLinkController.Support, NetLinkController.Init,
          NetLinkController.new, NBDController.new, nullptr, ha, hc, hg]

/-- Witness for C6: in a kernel without the nbd family `Init` fails, so
`Support()` is false and `SetUp` fails without touching handle or
configuration. -/
theorem C6_unsupported_family_witness :
    (NetLinkController.Support envNoFamily NetLinkController.new World.init).1 = false ∧
    (NetLinkController.SetUp envNoFamily ⟨"", 30⟩ 7 10737418240 4096 0
      NetLinkController.new World.init).ret < 0 ∧
    (NetLinkController.SetUp envNoFamily ⟨"", 30⟩ 7 10737418240 4096 0
      NetLinkController.new World.init).config = ⟨"", 30⟩ :=
  ⟨((C6_unsupported_family envNoFamily ⟨"", 30⟩ 7 10737418240 4096 0 World.init).2.2
      (by decide)).1,
   ((C6_unsupported_family envNoFamily ⟨"", 30⟩ 7 10737418240 4096 0 World.init).2.2
      (by decide)).2.1,
   ((C6_unsupported_family envNoFamily ⟨"", 30⟩ 7 10737418240 4096 0 World.init).2.2
      (by decide)).2.2.1⟩

/-- The guard of the timeout step, in both strategies.
Legacy: with `r0` the run of `InitDevAttr` without a timeout, `r0` issues
only (a prefix of) the four timeout-independent instructions and no
`NBD_SET_TIMEOUT`; a run with a negative timeout is `r0`; a run with a
timeout `t ≥ 0` is `r0` when `r0` fails, and otherwise issues the same four
instructions followed by `NBD_SET_TIMEOUT` with `t`.  Messaging: no
`nla_put` of a timeout attribute is issued and a message that is sent has the
stream `connectBody` without a timeout attribute when the timeout is
negative; a message that is sent has the same stream with the timeout
attribute carrying `t` in its place when `t ≥ 0`; and when `ConnectInternal`
returns 0 a message was sent. -/
theorem timeout_step_guard (env : Env) (config : NBDConfig) (sockfd : Int)
    (size blocksize flags : Nat) (io : NBDController) (nl : NetLinkController) (w : World) :
    (let r0 := IOController.InitDevAttr env { config with timeout := -1 } size blocksize flags
        io w
     let r := IOController.InitDevAttr env config size blocksize flags io w
     let seq := attrSequence io.nbdFd_ size blocksize flags
     ∃ l0, r0.2.trace = w.trace ++ l0 ∧ l0 <+: seq ∧
       (∀ fd arg, Call.ioctl fd .NBD_SET_TIMEOUT arg ∉ l0) ∧
       (config.timeout < 0 → r = r0) ∧
       (0 ≤ config.timeout →
         (r0.1 < 0 → r = r0) ∧
         (0 ≤ r0.1 → r.2.trace =
           w.trace ++ seq ++ [.ioctl io.nbdFd_ .NBD_SET_TIMEOUT config.timeout]))) ∧
    (let r := NetLinkController.ConnectInternal env config sockfd size blocksize flags nl w
     ∃ l, r.w.trace = w.trace ++ l ∧
       (config.timeout < 0 →
         (∀ v, Call.nla_put_u64 .NBD_ATTR_TIMEOUT v ∉ l) ∧
         (∀ sk m, Call.nl_send_sync sk m ∈ l →
           m.body = connectBody env config sockfd size blocksize flags [] ∧
           ∀ v, Item.u64 .NBD_ATTR_TIMEOUT v ∉ m.body)) ∧
       (0 ≤ config.timeout →
         (∀ sk m, Call.nl_send_sync sk m ∈ l →
           m.body = connectBody env config sockfd size blocksize flags
             [.u64 .NBD_ATTR_TIMEOUT (toU64 config.timeout)] ∧
           Call.nla_put_u64 .NBD_ATTR_TIMEOUT (toU64 config.timeout) ∈ l) ∧
         (config.timeout < 18446744073709551616 →
           ((toU64 config.timeout : Nat) : Int) = config.timeout)) ∧
       (r.ret = 0 → ∃ m, Call.nl_send_sync nl.sock_ m ∈ l)) := by
  constructor
  · have h0 := IOController.InitDevAttr_no_timeout env { config with timeout := -1 } size
      blocksize flags io w (show (-1 : Int) < 0 by decide)
    simp only [] at h0 ⊢
    obtain ⟨l0, hl0, hpre⟩ := trace_between h0.1 h0.2.1
    refine ⟨l0, hl0, hpre, ?_, ?_, ?_⟩
    · intro fd arg hmem
      have := hpre.subset hmem
      simp [attrSequence] at this
    · intro hneg
      have hn : ¬ config.timeout ≥ 0 := by omega
      have hn' : ¬ ((-1 : Int) ≥ 0) := by decide
      unfold IOController.InitDevAttr
      simp only [hn, hn', if_false]
    · intro hpos
      have h1 := IOController.InitDevAttr_timeout env config size blocksize flags io w hpos
      simp only [] at h1
      refine ⟨h1.1, fun hr0 => ?_⟩
      rw [h1.2 hr0, h0.2.2 hr0]
  · have hc := NetLinkController.ConnectInternal_cases env config sockfd size blocksize flags
      nl w
    simp only [] at hc ⊢
    rcases hc with ⟨hret, -, htr⟩ | ⟨l, hl, hret, -, htr⟩ | ⟨wb, -, hret, -, htr⟩
    · refine ⟨_, htr, ?_, ?_, ?_⟩
      · intro _; simp
      · intro _; simp [toU64]; omega
      · intro h0; rw [hret] at h0; simp [ENOMEM] at h0
    · refine ⟨_, by rw [htr, List.append_assoc, List.append_assoc], ?_, ?_, ?_⟩
      · intro hneg
        have hn : ¬ 0 ≤ config.timeout := by omega
        simp only [hn, if_false] at hl
        constructor
        · intro v hmem
          simp only [List.cons_append, List.nil_append, List.mem_cons, List.mem_append,
            List.mem_singleton, reduceCtorEq, false_or, or_false, List.not_mem_nil] at hmem
          have := hl.subset hmem
          by_cases hp : config.devpath = "" <;> simp [connectBody, Item.toCall, hp] at this
        · intro sk m hmem
          simp only [List.cons_append, List.nil_append, List.mem_cons, List.mem_append,
            List.mem_singleton, reduceCtorEq, false_or, or_false, List.not_mem_nil] at hmem
          have := hl.subset hmem
          by_cases hp : config.devpath = "" <;> simp [connectBody, Item.toCall, hp] at this
      · intro hpos
        constructor
        · intro sk m hmem
          simp only [List.cons_append, List.nil_append, List.mem_cons, List.mem_append,
            List.mem_singleton, reduceCtorEq, false_or, or_false, List.not_mem_nil] at hmem
          have := hl.subset hmem
          by_cases hp : config.devpath = "" <;>
            simp [connectBody, Item.toCall, hp, hpos] at this
        · intro _; simp [toU64]; omega
      · intro h0; rw [hret] at h0; simp [ EIO] at h0
    · refine ⟨_, by rw [htr, List.append_assoc, List.append_assoc], ?_, ?_, ?_⟩
      · intro hneg
        have hn : ¬ 0 ≤ config.timeout := by omega
        simp only [hn, if_false]
        constructor
        · intro v
          by_cases hp : config.devpath = "" <;> simp [connectBody, Item.toCall, hp]
        · intro sk m hmem
          have hm : sk = nl.sock_ ∧ m = ⟨some (nl.nlId_, .NBD_CMD_CONNECT),
              connectBody env config sockfd size blocksize flags []⟩ := by
            by_cases hp : config.devpath = "" <;>
              simpa [connectBody, Item.toCall, hp] using hmem
          obtain ⟨-, hm⟩ := hm
          subst hm
          refine ⟨rfl, fun v => ?_⟩
          by_cases hp : config.devpath = "" <;> simp [connectBody, hp]
      · intro hpos
        simp only [hpos, if_true]
        constructor
        · intro sk m hmem
          have hm : sk = nl.sock_ ∧ m = ⟨some (nl.nlId_, .NBD_CMD_CONNECT),
              connectBody env config sockfd size blocksize flags
                [.u64 .NBD_ATTR_TIMEOUT (toU64 config.timeout)]⟩ := by
            by_cases hp : config.devpath = "" <;>
              simpa [connectBody, Item.toCall, hp] using hmem
          obtain ⟨-, hm⟩ := hm
          subst hm
          refine ⟨rfl, ?_⟩
          by_cases hp : config.devpath = "" <;> simp [connectBody, Item.toCall, hp]
        · intro _; simp [toU64]; omega
      · intro _
        exact ⟨_, List.mem_append_right _ (List.mem_append_right _ (List.mem_singleton_self _))⟩

/-- C7: the timeout step is taken exactly when the timeout is not negative.
Legacy: with `r0` the run of `InitDevAttr` without a timeout, `r0` issues
only (a prefix of) the four timeout-independent instructions and no
`NBD_SET_TIMEOUT`; a run with a negative timeout is `r0`; a run with a
timeout `t ≥ 0` is `r0` when `r0` fails, and otherwise issues the same four
instructions followed by `NBD_SET_TIMEOUT` with `t`.  Messaging: no
`nla_put` of a timeout attribute is issued and a message that is sent has the
stream `connectBody` without a timeout attribute when the timeout is
negative; a message that is sent has the same stream with the timeout
attribute carrying `t` in its place when `t ≥ 0`; when `ConnectInternal`
returns 0 a message was sent; and when none of the encoding steps fails and
the path, if any, yields an index, `ConnectInternal` issues exactly the
encoding calls of the stream and then sends the message with it, so that
with `t ≥ 0` the timeout attribute carrying `t` is put and is in the message
sent, and with a negative timeout the message sent is the one without it. -/
theorem C7_timeout_step_iff_nonnegative (env : Env) (config : NBDConfig) (sockfd : Int)
    (size blocksize flags : Nat) (io : NBDController) (nl : NetLinkController) (w : World) :
    (let r0 := IOController.InitDevAttr env { config with timeout := -1 } size blocksize flags
        io w
     let r := IOController.InitDevAttr env config size blocksize flags io w
     let seq := attrSequence io.nbdFd_ size blocksize flags
     ∃ l0, r0.2.trace = w.trace ++ l0 ∧ l0 <+: seq ∧
       (∀ fd arg, Call.ioctl fd .NBD_SET_TIMEOUT arg ∉ l0) ∧
       (config.timeout < 0 → r = r0) ∧
       (0 ≤ config.timeout →
         (r0.1 < 0 → r = r0) ∧
         (0 ≤ r0.1 → r.2.trace =
           w.trace ++ seq ++ [.ioctl io.nbdFd_ .NBD_SET_TIMEOUT config.timeout]))) ∧
    (let r := NetLinkController.ConnectInternal env config sockfd size blocksize flags nl w
     ∃ l, r.w.trace = w.trace ++ l ∧
       (config.timeout < 0 →
         (∀ v, Call.nla_put_u64 .NBD_ATTR_TIMEOUT v ∉ l) ∧
         (∀ sk m, Call.nl_send_sync sk m ∈ l →
           m.body = connectBody env config sockfd size blocksize flags [] ∧
           ∀ v, Item.u64 .NBD_ATTR_TIMEOUT v ∉ m.body)) ∧
       (0 ≤ config.timeout →
         (∀ sk m, Call.nl_send_sync sk m ∈ l →
           m.body = connectBody env config sockfd size blocksize flags
             [.u64 .NBD_ATTR_TIMEOUT (toU64 config.timeout)] ∧
           Call.nla_put_u64 .NBD_ATTR_TIMEOUT (toU64 config.timeout) ∈ l) ∧
         (config.timeout < 18446744073709551616 →
           ((toU64 config.timeout : Nat) : Int) = config.timeout)) ∧
       (r.ret = 0 → ∃ m, Call.nl_send_sync nl.sock_ m ∈ l) ∧
       (allSucceeded env w.trace
           ([.nl_socket_modify_cb nl.sock_ .netlink_connect_cb, .nlmsg_alloc,
             .genlmsg_put nl.nlId_ .NBD_CMD_CONNECT] ++
            (connectBody env config sockfd size blocksize flags
              (if 0 ≤ config.timeout then [.u64 .NBD_ATTR_TIMEOUT (toU64 config.timeout)]
                else [])).map Item.toCall) = true →
         (config.devpath = "" ∨ 0 ≤ env.parse_nbd_index config.devpath) →
         l = [.nl_socket_modify_cb nl.sock_ .netlink_connect_cb, .nlmsg_alloc,
               .genlmsg_put nl.nlId_ .NBD_CMD_CONNECT] ++
             (connectBody env config sockfd size blocksize flags
               (if 0 ≤ config.timeout then [.u64 .NBD_ATTR_TIMEOUT (toU64 config.timeout)]
                 else [])).map Item.toCall ++
             [.nl_send_sync nl.sock_ ⟨some (nl.nlId_, .NBD_CMD_CONNECT),
               connectBody env config sockfd size blocksize flags
                 (if 0 ≤ config.timeout then [.u64 .NBD_ATTR_TIMEOUT (toU64 config.timeout)]
                   else [])⟩]) ∧
       (0 ≤ config.timeout →
         allSucceeded env w.trace
           ([.nl_socket_modify_cb nl.sock_ .netlink_connect_cb, .nlmsg_alloc,
             .genlmsg_put nl.nlId_ .NBD_CMD_CONNECT] ++
            (connectBody env config sockfd size blocksize flags
              [.u64 .NBD_ATTR_TIMEOUT (toU64 config.timeout)]).map Item.toCall) = true →
         (config.devpath = "" ∨ 0 ≤ env.parse_nbd_index config.devpath) →
         Call.nla_put_u64 .NBD_ATTR_TIMEOUT (toU64 config.timeout) ∈ l ∧
         Call.nl_send_sync nl.sock_ ⟨some (nl.nlId_, .NBD_CMD_CONNECT),
           connectBody env config sockfd size blocksize flags
             [.u64 .NBD_ATTR_TIMEOUT (toU64 config.timeout)]⟩ ∈ l ∧
         Item.u64 .NBD_ATTR_TIMEOUT (toU64 config.timeout) ∈
           connectBody env config sockfd size blocksize flags
             [.u64 .NBD_ATTR_TIMEOUT (toU64 config.timeout)]) ∧
       (config.timeout < 0 →
         allSucceeded env w.trace
           ([.nl_socket_modify_cb nl.sock_ .netlink_connect_cb, .nlmsg_alloc,
             .genlmsg_put nl.nlId_ .NBD_CMD_CONNECT] ++
            (connectBody env config sockfd size blocksize flags []).map Item.toCall) = true →
         (config.devpath = "" ∨ 0 ≤ env.parse_nbd_index config.devpath) →
         Call.nl_send_sync nl.sock_ ⟨some (nl.nlId_, .NBD_CMD_CONNECT),
           connectBody env config sockfd size blocksize flags []⟩ ∈ l)) := by
  have hbase := timeout_step_guard env config sockfd size blocksize flags io nl w
  refine ⟨hbase.1, ?_⟩
  have hmsg := hbase.2
  simp only [] at hmsg ⊢
  obtain ⟨l, htr, hneg, hpos, hret⟩ := hmsg
  have hsends : allSucceeded env w.trace
        ([.nl_socket_modify_cb nl.sock_ .netlink_connect_cb, .nlmsg_alloc,
          .genlmsg_put nl.nlId_ .NBD_CMD_CONNECT] ++
         (connectBody env config sockfd size blocksize flags
           (if 0 ≤ config.timeout then [.u64 .NBD_ATTR_TIMEOUT (toU64 config.timeout)]
             else [])).map Item.toCall) = true →
      (config.devpath = "" ∨ 0 ≤ env.parse_nbd_index config.devpath) →
      l = [.nl_socket_modify_cb nl.sock_ .netlink_connect_cb, .nlmsg_alloc,
            .genlmsg_put nl.nlId_ .NBD_CMD_CONNECT] ++
          (connectBody env config sockfd size blocksize flags
            (if 0 ≤ config.timeout then [.u64 .NBD_ATTR_TIMEOUT (toU64 config.timeout)]
              else [])).map Item.toCall ++
          [.nl_send_sync nl.sock_ ⟨some (nl.nlId_, .NBD_CMD_CONNECT),
            connectBody env config sockfd size blocksize flags
              (if 0 ≤ config.timeout then [.u64 .NBD_ATTR_TIMEOUT (toU64 config.timeout)]
                else [])⟩] := by
    intro hall hp
    have hs := NetLinkController.ConnectInternal_sends env config sockfd size blocksize
      flags nl w _ rfl hall hp
    rw [htr] at hs
    exact List.append_cancel_left hs
  refine ⟨l, htr, hneg, hpos, hret, hsends, ?_, ?_⟩
  · intro ht hall hp
    have hl := hsends (by rw [if_pos ht]; exact hall) hp
    rw [if_pos ht] at hl
    rw [hl]
    refine ⟨?_, ?_, ?_⟩
    · by_cases hd : config.devpath = "" <;> simp [connectBody, Item.toCall, hd]
    · exact List.mem_append_right _ (List.mem_singleton_self _)
    · by_cases hd : config.devpath = "" <;> simp [connectBody, hd]
  · intro ht hall hp
    have ht' : ¬ 0 ≤ config.timeout := by omega
    have hl := hsends (by rw [if_neg ht']; exact hall) hp
    rw [if_neg ht'] at hl
    rw [hl]
    exact List.mem_append_right _ (List.mem_singleton_self _)

/-- Witness for C7: with timeout 30 and every instruction succeeding, the
Legacy sequence is the four timeout-independent instructions followed by
`NBD_SET_TIMEOUT` with 30; and with timeout 5, no configured path and every
encoding step succeeding, the Messaging run puts the timeout attribute with 5
and ends with the send of the CONNECT message that carries it. -/
theorem C7_timeout_step_iff_nonnegative_witness :
    (IOController.InitDevAttr envOk ⟨"/dev/nbd0", 30⟩ 10737418240 4096 0 ⟨3, 0⟩
      World.init).2.trace =
      World.init.trace ++ attrSequence 3 10737418240 4096 0 ++
        [.ioctl 3 .NBD_SET_TIMEOUT 30] ∧
    (NetLinkController.ConnectInternal envOk ⟨"", 5⟩ 9 1048576 512 0
      ⟨NBDController.new, 27, 1000⟩ World.init).w.trace =
      [ .nl_socket_modify_cb 1000 .netlink_connect_cb, .nlmsg_alloc,
        .genlmsg_put 27 .NBD_CMD_CONNECT,
        .nla_put_u64 .NBD_ATTR_TIMEOUT 5,
        .nla_put_u64 .NBD_ATTR_SIZE_BYTES 1048576,
        .nla_put_u64 .NBD_ATTR_BLOCK_SIZE_BYTES 512,
        .nla_put_u64 .NBD_ATTR_SERVER_FLAGS 0,
        .nla_nest_start .NBD_ATTR_SOCKETS, .nla_nest_start .NBD_SOCK_ITEM,
        .nla_put_u32 .NBD_SOCK_FD 9,
        .nla_nest_end .NBD_SOCK_ITEM, .nla_nest_end .NBD_ATTR_SOCKETS,
        .nl_send_sync 1000 ⟨some (27, .NBD_CMD_CONNECT),
          [ .u64 .NBD_ATTR_TIMEOUT 5,
            .u64 .NBD_ATTR_SIZE_BYTES 1048576, .u64 .NBD_ATTR_BLOCK_SIZE_BYTES 512,
            .u64 .NBD_ATTR_SERVER_FLAGS 0,
            .nest_start .NBD_ATTR_SOCKETS, .nest_start .NBD_SOCK_ITEM,
            .u32 .NBD_SOCK_FD 9,
            .nest_end .NBD_SOCK_ITEM, .nest_end .NBD_ATTR_SOCKETS ]⟩ ] ∧
    Call.nla_put_u64 .NBD_ATTR_TIMEOUT 5 ∈
      (NetLinkController.ConnectInternal envOk ⟨"", 5⟩ 9 1048576 512 0
        ⟨NBDController.new, 27, 1000⟩ World.init).w.trace := by
  obtain ⟨_, _, _, _, _, h⟩ := (C7_timeout_step_iff_nonnegative envOk ⟨"/dev/nbd0", 30⟩ 7
    10737418240 4096 0 ⟨3, 0⟩ NetLinkController.new World.init).1
  obtain ⟨l, htr, _, _, _, hsends, hput, _⟩ := (C7_timeout_step_iff_nonnegative envOk
    ⟨"", 5⟩ 9 1048576 512 0 NBDController.new ⟨NBDController.new, 27, 1000⟩ World.init).2
  refine ⟨(h (by decide)).2 (by decide), ?_, ?_⟩
  · rw [htr, hsends (by decide) (Or.inl rfl)]
    decide
  · rw [htr]
    exact List.mem_append_right _ (hput (by decide) (by decide) (Or.inl rfl)).1

/-- C8: in every state of a controller of either strategy reachable through
the public operations, `ClearUp` leaves the handle at descriptor -1 and index
-1; it closes the device node, once, exactly when the node was open, and
writes no diagnostic; and a second `ClearUp`, in any environment, changes
neither the object nor the world, so it closes nothing. -/
theorem C8_ClearUp_idempotent (s : NBDController) (w : World) (env env2 : Env)
    (h : IOController.Reachable s w ∨
      ∃ n : NetLinkController, n.toNBDController = s ∧ NetLinkController.Reachable n w) :
    let c := NBDController.ClearUp env s w
    c.1.nbdFd_ = -1 ∧ c.1.nbdIndex_ = -1 ∧
    c.2.trace = w.trace ++ (if 0 ≤ s.nbdFd_ then [Call.close s.nbdFd_] else []) ∧
    c.2.log = w.log ∧
    NBDController.ClearUp env2 c.1 c.2 = c := by
  have hinv : s = NBDController.new ∨ (0 ≤ s.nbdFd_ ∧ 0 ≤ s.nbdIndex_) := by
    rcases h with h | ⟨n, rfl, h⟩
    · exact h.io_handle
    · exact h.nl_handle
  rcases hinv with hs | hs
  · subst hs
    simp [NBDController.ClearUp, NBDController.new]
  · have hfd : ¬ s.nbdFd_ < 0 := by omega
    simp [NBDController.ClearUp, hfd, hs.1]

/-- Witness for C8: the state after a successful Legacy `SetUp`. -/
theorem C8_ClearUp_idempotent_witness :
    (NBDController.ClearUp envOk
      (IOController.SetUp envOk ⟨"", 30⟩ 7 10737418240 4096 0 NBDController.new
        World.init).self
      (IOController.SetUp envOk ⟨"", 30⟩ 7 10737418240 4096 0 NBDController.new
        World.init).w).1.nbdFd_ = -1 :=
  (C8_ClearUp_idempotent _ _ envOk envOk
    (Or.inl (IOController.Reachable.SetUp envOk ⟨"", 30⟩ 7 10737418240 4096 0
      (IOController.Reachable.new World.init)))).1

/-- C9: a reply without index attribute makes `netlink_connect_cb` return a
negative error and leave the configuration as it was, while a well-formed
reply with index attribute `k` makes it return `NL_OK` and set the device
path to `/dev/nbd<k>`.  When the valid message answering every send lacks the
index attribute, `SetUp` on a new controller returns a negative value, leaves
configuration and handle (descriptor -1, index -1) as they were, and opens no
device node. -/
theorem C9_reply_without_index (env : Env) (config : NBDConfig) (sockfd : Int)
    (size blocksize flags : Nat) (w : World)
    (hreply : ∀ h m, ∃ rp, env.reply h m = some rp ∧ rp.index = none) :
    (∀ (msg : Reply) (cfg : NBDConfig) (w0 : World), msg.index = none →
      (netlink_connect_cb msg cfg w0).1 < 0 ∧ (netlink_connect_cb msg cfg w0).2.1 = cfg) ∧
    (∀ (msg : Reply) (cfg : NBDConfig) (w0 : World) (k : Nat),
      msg.nla_parse = 0 → msg.index = some k →
      (netlink_connect_cb msg cfg w0).1 = NL_OK ∧
      (netlink_connect_cb msg cfg w0).2.1 = ⟨"/dev/nbd" ++ toString k, cfg.timeout⟩) ∧
    (let r := NetLinkController.SetUp env config sockfd size blocksize flags
        NetLinkController.new w
     r.ret < 0 ∧ r.config = config ∧ r.self.nbdFd_ = -1 ∧ r.self.nbdIndex_ = -1 ∧
     ∃ l, r.w.trace = w.trace ++ l ∧ ∀ p, Call.open p ∉ l) := by
  refine ⟨?_, ?_, ?_⟩
  · intro msg cfg w0 hidx
    unfold netlink_connect_cb
    simp only [hidx]
    split_ifs <;> simp [NLE_MSGTYPE_NOSUPPORT]
  · intro msg cfg w0 k hparse hidx
    unfold netlink_connect_cb
    simp [hparse, hidx]
  · have hi := NetLinkController.Init_cases env NetLinkController.new w
    obtain ⟨li, hli, hsi⟩ := NetLinkController.Init_trace env NetLinkController.new w
    have hc := NetLinkController.ConnectInternal_cases env config sockfd size blocksize flags
      (NetLinkController.Init env NetLinkController.new w).self
      (NetLinkController.Init env NetLinkController.new w).w
    obtain ⟨lc, hlc, hsc⟩ := NetLinkController.ConnectInternal_opens_nothing env config sockfd
      size blocksize flags (NetLinkController.Init env NetLinkController.new w).self
      (NetLinkController.Init env NetLinkController.new w).w
    have hu := NetLinkController.Uninit_handle env
      (NetLinkController.Init env NetLinkController.new w).self
      (NetLinkController.ConnectInternal env config sockfd size blocksize flags
        (NetLinkController.Init env NetLinkController.new w).self
        (NetLinkController.Init env NetLinkController.new w).w).w
    obtain ⟨lu, hlu, hsu⟩ := NetLinkController.Uninit_trace env
      (NetLinkController.Init env NetLinkController.new w).self
      (NetLinkController.ConnectInternal env config sockfd size blocksize flags
        (NetLinkController.Init env NetLinkController.new w).self
        (NetLinkController.Init env NetLinkController.new w).w).w
    have hcfail :
        (NetLinkController.ConnectInternal env config sockfd size blocksize flags
          (NetLinkController.Init env NetLinkController.new w).self
          (NetLinkController.Init env NetLinkController.new w).w).ret < 0 ∧
        (NetLinkController.ConnectInternal env config sockfd size blocksize flags
          (NetLinkController.Init env NetLinkController.new w).self
          (NetLinkController.Init env NetLinkController.new w).w).config = config := by
      simp only [] at hc
      rcases hc with ⟨hret, hcfg, -⟩ | ⟨l, -, hret, hcfg, -⟩ | ⟨wb, -, hret, hcfg, -⟩
      · exact ⟨by rw [hret]; decide, hcfg⟩
      · exact ⟨by rw [hret]; decide, hcfg⟩
      · have hs := nl_send_sync_no_index env
          (NetLinkController.Init env NetLinkController.new w).self.sock_
          ⟨some ((NetLinkController.Init env NetLinkController.new w).self.nlId_,
              .NBD_CMD_CONNECT),
            connectBody env config sockfd size blocksize flags
              (if 0 ≤ config.timeout then [.u64 .NBD_ATTR_TIMEOUT (toU64 config.timeout)]
                else [])⟩
          config wb (hreply _ _)
        rw [hret, hcfg, if_pos hs.1]
        exact ⟨by decide, hs.2⟩
    simp only [] at hi ⊢
    unfold NetLinkController.SetUp
    simp only []
    by_cases h1 : (NetLinkController.Init env NetLinkController.new w).ret < 0
    · rw [if_pos h1]
      refine ⟨h1, rfl, ?_, ?_, li, hli, ?_⟩
      · rw [hi.2]; rfl
      · rw [hi.2]; rfl
      · intro p hp
        have := hsi _ hp
        simp [Call.isSession] at this
    · rw [if_neg h1, if_pos hcfail.1]
      refine ⟨hcfail.1, hcfail.2, ?_, ?_, li ++ lc ++ lu, ?_, ?_⟩
      · rw [hu, hi.2]; rfl
      · rw [hu, hi.2]; rfl
      · rw [hlu, hlc, hli]; simp
      · intro p hp
        simp only [List.mem_append] at hp
        rcases hp with (hp | hp) | hp
        · have := hsi _ hp
          simp [Call.isSession] at this
        · exact hsc p hp
        · have := hsu _ hp
          simp [Call.isSession] at this

/-- Witness for C9: a kernel whose answer to CONNECT has no index attribute. -/
theorem C9_reply_without_index_witness :
    (NetLinkController.SetUp envNoIndexReply ⟨"", 30⟩ 7 10737418240 4096 0
      NetLinkController.new World.init).ret < 0 ∧
    (NetLinkController.SetUp envNoIndexReply ⟨"", 30⟩ 7 10737418240 4096 0
      NetLinkController.new World.init).config = ⟨"", 30⟩ :=
  ⟨(C9_reply_without_index envNoIndexReply ⟨"", 30⟩ 7 10737418240 4096 0 World.init
      (fun _ _ => ⟨_, rfl, rfl⟩)).2.2.1,
   (C9_reply_without_index envNoIndexReply ⟨"", 30⟩ 7 10737418240 4096 0 World.init
      (fun _ _ => ⟨_, rfl, rfl⟩)).2.2.2.1⟩

/-- C10 (failing input): in a kernel where the channel opens but the nbd
family cannot be resolved, `Support()` and `SetUp` on a new controller return
with the channel null and the family identifier holding the resolver's error
code -12, not the initial value -1. -/
theorem C10_failed_resolution_keeps_error_code :
    (NetLinkController.Support envNoFamily NetLinkController.new World.init).1 = false ∧
    (NetLinkController.Support envNoFamily NetLinkController.new World.init).2.1.sock_ =
      nullptr ∧
    (NetLinkController.Support envNoFamily NetLinkController.new World.init).2.1.nlId_ = -12 ∧
    (NetLinkController.SetUp envNoFamily ⟨"", 30⟩ 7 10737418240 4096 0
      NetLinkController.new World.init).self.nlId_ = -12 ∧
    NetLinkController.new.nlId_ = -1 := by
  decide

/-- C11: with `body` the attribute stream made of the target index parsed
from the configured path exactly when the path is not empty, the timeout
exactly when it is not negative, size, block size (as a 64-bit attribute of
the same value), server flags, and one nested sockets list with one item
holding only the socket descriptor, in this order: when none of the
encoding steps for `body` fails and the path, if any, yields an index,
`ConnectInternal` issues these steps and sends the message with the CONNECT
command and exactly `body`; whatever happens, a message that is sent is this
one; and
when the path is not empty but yields no index, or any encoding step fails
(`nlmsg_alloc`, `genlmsg_put` or `nla_nest_start` returns null, or an
`nla_put` returns a negative value), no message is sent and the result is
negative.  The index, the descriptor and the timeout are carried unchanged
when they are not negative. -/
theorem C11_connect_message (env : Env) (config : NBDConfig) (sockfd : Int)
    (size blocksize flags : Nat) (self : NetLinkController) (w : World) :
    let body : List Item :=
      (if config.devpath ≠ "" then
        [Item.u32 .NBD_ATTR_INDEX (toU32 (env.parse_nbd_index config.devpath))] else []) ++
      (if 0 ≤ config.timeout then
        [Item.u64 .NBD_ATTR_TIMEOUT (toU64 config.timeout)] else []) ++
      [ .u64 .NBD_ATTR_SIZE_BYTES size,
        .u64 .NBD_ATTR_BLOCK_SIZE_BYTES blocksize,
        .u64 .NBD_ATTR_SERVER_FLAGS flags,
        .nest_start .NBD_ATTR_SOCKETS,
        .nest_start .NBD_SOCK_ITEM,
        .u32 .NBD_SOCK_FD (toU32 sockfd),
        .nest_end .NBD_SOCK_ITEM,
        .nest_end .NBD_ATTR_SOCKETS ]
    let msg : NlMsg := ⟨some (self.nlId_, .NBD_CMD_CONNECT), body⟩
    let r := NetLinkController.ConnectInternal env config sockfd size blocksize flags self w
    (∃ l, r.w.trace = w.trace ++ l ∧
      (allSucceeded env w.trace
          ([.nl_socket_modify_cb self.sock_ .netlink_connect_cb, .nlmsg_alloc,
            .genlmsg_put self.nlId_ .NBD_CMD_CONNECT] ++ body.map Item.toCall) = true →
        (config.devpath = "" ∨ 0 ≤ env.parse_nbd_index config.devpath) →
        l = [.nl_socket_modify_cb self.sock_ .netlink_connect_cb, .nlmsg_alloc,
              .genlmsg_put self.nlId_ .NBD_CMD_CONNECT] ++ body.map Item.toCall ++
            [.nl_send_sync self.sock_ msg]) ∧
      (∀ sk m, Call.nl_send_sync sk m ∈ l → sk = self.sock_ ∧ m = msg) ∧
      (config.devpath ≠ "" → env.parse_nbd_index config.devpath < 0 →
        r.ret < 0 ∧ ∀ sk m, Call.nl_send_sync sk m ∉ l) ∧
      (∀ l1 c l2, l = l1 ++ c :: l2 → Call.failed c (env.sys (w.trace ++ l1) c) = true →
        r.ret < 0 ∧ ∀ sk m, Call.nl_send_sync sk m ∉ l)) ∧
    (0 ≤ env.parse_nbd_index config.devpath →
      env.parse_nbd_index config.devpath < 4294967296 →
      ((toU32 (env.parse_nbd_index config.devpath) : Nat) : Int) =
        env.parse_nbd_index config.devpath) ∧
    (0 ≤ sockfd → sockfd < 4294967296 → ((toU32 sockfd : Nat) : Int) = sockfd) ∧
    (0 ≤ config.timeout → config.timeout < 18446744073709551616 →
      ((toU64 config.timeout : Nat) : Int) = config.timeout) := by
  intro body msg r
  refine ⟨?_, ?_, ?_, ?_⟩
  · obtain ⟨l, htr, hcase⟩ := NetLinkController.ConnectInternal_run env config sockfd size
      blocksize flags self w body rfl
    have hsends : allSucceeded env w.trace
          ([.nl_socket_modify_cb self.sock_ .netlink_connect_cb, .nlmsg_alloc,
            .genlmsg_put self.nlId_ .NBD_CMD_CONNECT] ++ body.map Item.toCall) = true →
        (config.devpath = "" ∨ 0 ≤ env.parse_nbd_index config.devpath) →
        l = [.nl_socket_modify_cb self.sock_ .netlink_connect_cb, .nlmsg_alloc,
              .genlmsg_put self.nlId_ .NBD_CMD_CONNECT] ++ body.map Item.toCall ++
            [.nl_send_sync self.sock_ msg] := by
      intro hok hp
      have hs := NetLinkController.ConnectInternal_sends env config sockfd size blocksize
        flags self w body rfl hok hp
      rw [htr] at hs
      exact List.append_cancel_left hs
    refine ⟨l, htr, hsends, ?_⟩
    rcases hcase with ⟨hneg, hnosend, -⟩ | ⟨hl, hall, hparse⟩
    · refine ⟨fun sk m hmem => absurd hmem (hnosend sk m),
        fun _ _ => ⟨hneg, hnosend⟩, fun _ _ _ _ _ => ⟨hneg, hnosend⟩⟩
    · refine ⟨?_, ?_, ?_⟩
      · intro sk m hmem
        rw [hl] at hmem
        simp only [List.cons_append, List.nil_append, List.mem_cons, List.mem_append,
          List.mem_singleton, reduceCtorEq, false_or, Call.nl_send_sync.injEq,
          List.not_mem_nil, or_false] at hmem
        rcases hmem with hmem | hmem
        · exact absurd (List.mem_cons_of_mem (Call.genlmsg_put self.nlId_ .NBD_CMD_CONNECT)
            hmem) (encoding_has_no_send sk m _ _ body)
        · exact hmem
      · intro hp hx
        have := hparse hp
        omega
      · intro l1 c l2 hsplit hfail
        rw [hsplit] at hall
        have := allSucceeded_split env l1 c l2 w.trace hall
        rw [this] at hfail
        exact absurd hfail (by decide)
  · intro h1 h2; simp [toU32]; omega
  · intro h1 h2; simp [toU32]; omega
  · intro h1 h2; simp [toU64]; omega

/-- Witness for C11: in a kernel where every call succeeds, with path
`/dev/nbd1`, timeout 30, descriptor 7, size 10 GiB, block size 4096 and flags
0, the run ends with the send of the complete CONNECT message. -/
theorem C11_connect_message_witness :
    (NetLinkController.ConnectInternal envOk ⟨"/dev/nbd1", 30⟩ 7 10737418240 4096 0
      ⟨NBDController.new, 27, 1000⟩ World.init).w.trace =
    [ .nl_socket_modify_cb 1000 .netlink_connect_cb, .nlmsg_alloc,
      .genlmsg_put 27 .NBD_CMD_CONNECT,
      .nla_put_u32 .NBD_ATTR_INDEX 1, .nla_put_u64 .NBD_ATTR_TIMEOUT 30,
      .nla_put_u64 .NBD_ATTR_SIZE_BYTES 10737418240,
      .nla_put_u64 .NBD_ATTR_BLOCK_SIZE_BYTES 4096,
      .nla_put_u64 .NBD_ATTR_SERVER_FLAGS 0,
      .nla_nest_start .NBD_ATTR_SOCKETS, .nla_nest_start .NBD_SOCK_ITEM,
      .nla_put_u32 .NBD_SOCK_FD 7,
      .nla_nest_end .NBD_SOCK_ITEM, .nla_nest_end .NBD_ATTR_SOCKETS,
      .nl_send_sync 1000 ⟨some (27, .NBD_CMD_CONNECT),
        [ .u32 .NBD_ATTR_INDEX 1, .u64 .NBD_ATTR_TIMEOUT 30,
          .u64 .NBD_ATTR_SIZE_BYTES 10737418240, .u64 .NBD_ATTR_BLOCK_SIZE_BYTES 4096,
          .u64 .NBD_ATTR_SERVER_FLAGS 0,
          .nest_start .NBD_ATTR_SOCKETS, .nest_start .NBD_SOCK_ITEM,
          .u32 .NBD_SOCK_FD 7,
          .nest_end .NBD_SOCK_ITEM, .nest_end .NBD_ATTR_SOCKETS ]⟩ ] := by
  obtain ⟨l, htr, hsent, -⟩ := (C11_connect_message envOk ⟨"/dev/nbd1", 30⟩ 7 10737418240
    4096 0 ⟨NBDController.new, 27, 1000⟩ World.init).1
  rw [htr, hsent (by decide) (Or.inr (by decide))]
  decide

end curve.nbd
